import Mathlib

/-!
# Verification of the locksmith marketplace quote-and-dispatch engine

A shallow embedding of the core logic of the `locksmith` repository:

* the customer session funnel (`apps/api/app/api/customer.py`),
* the wave-based job dispatcher (`backend/app/services/dispatch_service.py`),
* the inbound Twilio SMS webhook (`apps/api/app/api/webhooks.py`),
* provider (locksmith) mutations (`apps/api/app/services/locksmith_service.py`),
* phone-number normalization (`apps/api/app/schemas/request_session.py`).

Pure Python code is translated into Lean functions; database state is an
explicit record (`DB`) threaded through the operations; Python `float`
arithmetic is modelled exactly as IEEE-754 binary64 over `ℚ` (round to
nearest, ties to even, 53-bit significand) for the normal magnitude range
used by prices (see `fpRound`).
-/

set_option maxRecDepth 100000

namespace Locksmith

attribute [local semireducible] Rat.mul Rat.add Rat.sub Rat.inv

/-! ## Status enums (`models/request_session.py`, `models/job.py`, `models/job_offer.py`) -/

/-- `SessionStatus` from `apps/api/app/models/request_session.py`. -/
inductive SessionStatus where
  | STARTED
  | LOCATION_VALIDATED
  | LOCATION_REJECTED
  | SERVICE_SELECTED
  | PENDING_APPROVAL
  | PAYMENT_PENDING
  | PAYMENT_COMPLETED
  | ABANDONED
deriving DecidableEq, Repr

/-- `JobStatus` from `backend/app/models/job.py`. -/
inductive JobStatus where
  | CREATED
  | DISPATCHING
  | OFFERED
  | ASSIGNED
  | EN_ROUTE
  | COMPLETED
  | CANCELED
  | FAILED
deriving DecidableEq, Repr

/-- `OfferStatus` from `backend/app/models/job_offer.py`. -/
inductive OfferStatus where
  | PENDING
  | ACCEPTED
  | DECLINED
  | EXPIRED
  | CANCELED
deriving DecidableEq, Repr

/-! ## Phone normalization (`LocationValidation.validate_phone`,
`apps/api/app/schemas/request_session.py` lines 33-44)

Python: `digits = re.sub(r"\D", "", v)`; 10 digits → prefix `+1`;
11 digits starting with `1` → prefix `+`; otherwise (≥ 10 digits) → prefix
`+`; fewer than 10 digits raises `ValueError` (modelled as `none`).
Strings are modelled as `List Char`; `\d` is modelled as the ASCII digit
predicate `Char.isDigit` (the normalized output only ever prepends the
fixed characters `+` and `1`, for which the two notions agree). -/

def validate_phone (v : List Char) : Option (List Char) :=
  let digits := v.filter Char.isDigit
  if digits.length = 10 then some ('+' :: '1' :: digits)
  else if digits.length = 11 ∧ digits.head? = some '1' then some ('+' :: digits)
  else if 10 ≤ digits.length then some ('+' :: digits)
  else none

lemma filter_isDigit_idem (l : List Char) :
    (l.filter Char.isDigit).filter Char.isDigit = l.filter Char.isDigit := by
  rw [List.filter_eq_self]
  intro a ha
  exact List.of_mem_filter ha

lemma validate_phone_digits (v : List Char) :
    ('+' :: v.filter Char.isDigit).filter Char.isDigit = v.filter Char.isDigit := by
  rw [List.filter_cons_of_neg (by decide)]
  exact filter_isDigit_idem v

/-- C9: phone normalization is idempotent: whenever
`validate_phone x = some out`, also `validate_phone out = some out`. -/
theorem validate_phone_idempotent (x out : List Char)
    (h : validate_phone x = some out) : validate_phone out = some out := by
  unfold validate_phone at h ⊢
  set digits := x.filter Char.isDigit with hd
  by_cases h10 : digits.length = 10
  · simp only [h10, if_pos rfl] at h
    obtain rfl : ('+' :: '1' :: digits) = out := by simpa using h
    have hfil : ('+' :: '1' :: digits).filter Char.isDigit = '1' :: digits := by
      rw [List.filter_cons_of_neg (by decide), List.filter_cons_of_pos (by decide),
        filter_isDigit_idem]
    simp [hfil, h10]
  · rw [if_neg h10] at h
    by_cases h11 : digits.length = 11 ∧ digits.head? = some '1'
    · rw [if_pos h11] at h
      obtain rfl : ('+' :: digits) = out := by simpa using h
      have hfil := validate_phone_digits x
      rw [← hd] at hfil
      simp [hfil, h10, h11]
    · rw [if_neg h11] at h
      by_cases hge : 10 ≤ digits.length
      · rw [if_pos hge] at h
        obtain rfl : ('+' :: digits) = out := by simpa using h
        have hfil := validate_phone_digits x
        rw [← hd] at hfil
        simp only [hfil]
        rw [if_neg h10, if_neg h11, if_pos hge]
      · rw [if_neg hge] at h
        exact absurd h (by simp)

/-- Witness for C9 at the concrete input `"(956) 555-0101"`, whose
normal form is `"+19565550101"`. -/
theorem validate_phone_idempotent_witness :
    validate_phone "+19565550101".data = some "+19565550101".data :=
  validate_phone_idempotent "(956) 555-0101".data "+19565550101".data (by decide)

/-! ## IEEE-754 binary64 model

Python `float`s are IEEE-754 binary64. We model a binary64 value by the
exact rational it denotes and model every arithmetic operation as the exact
rational operation followed by `fpRound`: rounding to 53 significant bits,
to nearest, ties to even. The model covers the normal range
`2^-200 ≤ |q| < 2^700` (no overflow and no subnormals), which amply covers
every price and deposit amount occurring in the code. -/

/-- Fuel-driven `⌊log₂ n⌋` (equals `Nat.log2 n` for `n < 2 ^ fuel`);
written with explicit fuel so that it reduces inside `decide`. -/
def log2Aux : ℕ → ℕ → ℕ
  | 0, _ => 0
  | fuel + 1, n => if 2 ≤ n then log2Aux fuel (n / 2) + 1 else 0

/-- Round a rational to the nearest integer, ties to even. -/
def roundHalfEven (q : ℚ) : ℤ :=
  let f := ⌊q⌋
  if q - f < 1 / 2 then f
  else if 1 / 2 < q - f then f + 1
  else if f % 2 = 0 then f else f + 1

/-- `⌊log₂ q⌋` for positive rationals `q ≥ 2^-200` (scale by `2^200` and
take the integer log). -/
def qlog2 (q : ℚ) : ℤ := (log2Aux 1000 (⌊q * 2 ^ (200 : ℕ)⌋).toNat : ℤ) - 200

/-- Binary64 rounding of a positive rational: scale to a 53-bit integer
significand, round half to even, scale back. -/
def fpRoundPos (q : ℚ) : ℚ :=
  (roundHalfEven (q / 2 ^ (qlog2 q - 52)) : ℚ) * 2 ^ (qlog2 q - 52)

/-- Binary64 rounding (round to nearest, ties to even, 53-bit significand). -/
def fpRound (q : ℚ) : ℚ :=
  if q = 0 then 0 else if 0 < q then fpRoundPos q else -fpRoundPos (-q)

/-- Python `int()` applied to a float value: truncation toward zero. -/
def pyInt (q : ℚ) : ℤ := if q < 0 then -⌊-q⌋ else ⌊q⌋

lemma roundHalfEven_intCast (n : ℤ) : roundHalfEven (n : ℚ) = n := by
  simp [roundHalfEven]

lemma fpRoundPos_eq_self (q : ℚ) (n : ℤ)
    (hn : q / 2 ^ (qlog2 q - 52) = (n : ℚ)) : fpRoundPos q = q := by
  unfold fpRoundPos
  rw [hn, roundHalfEven_intCast, ← hn,
    div_mul_cancel₀ _ (zpow_ne_zero _ (by norm_num : (2:ℚ) ≠ 0))]

lemma log2Aux_le (fuel : ℕ) : ∀ n k : ℕ, n < 2 ^ fuel → n < 2 ^ (k + 1) →
    log2Aux fuel n ≤ k := by
  induction fuel with
  | zero => intro n k _ _; simp [log2Aux]
  | succ fuel ih =>
    intro n k hfuel hk
    unfold log2Aux
    by_cases h2 : 2 ≤ n
    · rw [if_pos h2]
      have hk1 : 1 ≤ k := by
        by_contra hc
        interval_cases k
        omega
      have hfuel' : n / 2 < 2 ^ fuel := by
        have : (2:ℕ) ^ (fuel + 1) = 2 * 2 ^ fuel := by ring
        omega
      have hk' : n / 2 < 2 ^ (k - 1 + 1) := by
        have h1 : k - 1 + 1 = k := by omega
        have : (2:ℕ) ^ (k + 1) = 2 * 2 ^ k := by ring
        rw [h1]; omega
      have := ih (n / 2) (k - 1) hfuel' hk'
      omega
    · rw [if_neg h2]; omega

lemma qlog2_le (q : ℚ) (k : ℕ) (hk : k ≤ 700) (hq : q < 2 ^ (k + 1)) :
    qlog2 q ≤ (k : ℤ) := by
  unfold qlog2
  have h1 : q * 2 ^ (200:ℕ) < ((2 ^ (k + 201) : ℤ) : ℚ) := by
    have hlt : q * 2 ^ (200:ℕ) < 2 ^ (k + 1) * 2 ^ (200:ℕ) :=
      mul_lt_mul_of_pos_right hq (by positivity)
    calc q * 2 ^ (200:ℕ) < 2 ^ (k + 1) * 2 ^ (200:ℕ) := hlt
      _ = 2 ^ (k + 201) := by rw [← pow_add]
      _ = ((2 ^ (k + 201) : ℤ) : ℚ) := by push_cast; ring
  have hfl : ⌊q * 2 ^ (200:ℕ)⌋ < 2 ^ (k + 201) := Int.floor_lt.mpr h1
  have hpow : ((2 ^ (k + 201) : ℕ) : ℤ) = 2 ^ (k + 201) := by push_cast; ring
  have hpos : 0 < (2 ^ (k + 201) : ℕ) := pow_pos (by norm_num) _
  have hnat : (⌊q * 2 ^ (200:ℕ)⌋).toNat < 2 ^ (k + 201) := by omega
  have hlog := log2Aux_le 1000 (⌊q * 2 ^ (200:ℕ)⌋).toNat (k + 200)
    (by calc (⌊q * 2 ^ (200:ℕ)⌋).toNat < 2 ^ (k + 201) := hnat
      _ ≤ 2 ^ 1000 := Nat.pow_le_pow_right (by norm_num) (by omega))
    (by simpa using hnat)
  omega

/-- Exactness: a positive rational of the form `m / 2` with `m < 2^53` an
integer is exactly representable in binary64, so `fpRound` fixes it. -/
lemma fpRound_half_int (m : ℤ) (h0 : 0 < m) (hm : m < 2 ^ 53) :
    fpRound ((m : ℚ) / 2) = (m : ℚ) / 2 := by
  have hqpos : 0 < (m : ℚ) / 2 := by positivity
  have hq52 : (m : ℚ) / 2 < 2 ^ (51 + 1) := by
    rw [div_lt_iff₀ (by norm_num : (0:ℚ) < 2)]
    calc (m : ℚ) < ((2 ^ 53 : ℤ) : ℚ) := by exact_mod_cast hm
      _ = 2 ^ (51 + 1) * 2 := by norm_num
  set l : ℤ := qlog2 ((m : ℚ) / 2) with hl
  have hle : l ≤ 51 := qlog2_le _ 51 (by norm_num) hq52
  have hexp : 0 ≤ 51 - l := by omega
  have hn : (m : ℚ) / 2 / 2 ^ (l - 52) = ((m * 2 ^ (51 - l).toNat : ℤ) : ℚ) := by
    have h2 : (2:ℚ) ^ (l - 52) ≠ 0 := zpow_ne_zero _ (by norm_num)
    rw [div_eq_iff h2]
    push_cast
    rw [← zpow_natCast (2:ℚ) (51 - l).toNat, Int.toNat_of_nonneg hexp,
      mul_assoc, ← zpow_add₀ (by norm_num : (2:ℚ) ≠ 0)]
    have he : 51 - l + (l - 52) = -1 := by ring
    rw [he, zpow_neg_one, ← div_eq_mul_inv]
  have hfix := fpRoundPos_eq_self ((m : ℚ) / 2) _ (by rw [← hl]; exact hn)
  unfold fpRound
  rw [if_neg (by positivity), if_pos hqpos]
  exact hfix

/-- Exactness for integers below `2^52`. -/
lemma fpRound_int (m : ℤ) (h0 : 0 < m) (hm : m < 2 ^ 52) :
    fpRound (m : ℚ) = (m : ℚ) := by
  have h := fpRound_half_int (2 * m) (by omega) (by omega)
  have h2 : ((2 * m : ℤ) : ℚ) / 2 = (m : ℚ) := by push_cast; ring
  rwa [h2] at h

lemma pyInt_nonneg (q : ℚ) (h : 0 ≤ q) : pyInt q = ⌊q⌋ := by
  unfold pyInt
  rw [if_neg (not_lt.mpr h)]

/-! ## Deposit computation (`select_service`,
`apps/api/app/api/customer.py` lines 208-213)

Python:
`deposit_amount = settings.deposit_amounts.get(data.service_type, 4900)`;
`if data.urgency == "emergency": deposit_amount = int(deposit_amount * 1.5)`.
`deposit_amount * 1.5` is binary64 arithmetic (the int is converted to a
double, multiplied by the exact double `1.5`, and the product rounded);
`int()` truncates toward zero. -/

/-- The configured `deposit_amounts` map (`backend/app/config.py`). -/
def deposit_amounts_default : List (String × ℤ) :=
  [("home_lockout", 4900), ("car_lockout", 5900), ("rekey", 7900), ("smart_lock", 9900)]

/-- `settings.deposit_amounts.get(service_type, 4900)`. -/
def deposit_base (deposit_amounts : List (String × ℤ)) (service_type : String) : ℤ :=
  (deposit_amounts.lookup service_type).getD 4900

/-- The deposit stored by `select_service` (lines 208-213 of `customer.py`). -/
def select_service_deposit (deposit_amounts : List (String × ℤ))
    (service_type urgency : String) : ℤ :=
  let base := deposit_base deposit_amounts service_type
  if urgency = "emergency" then pyInt (fpRound (fpRound (base : ℚ) * (3 / 2)))
  else base

lemma pyInt_intCast (n : ℤ) : pyInt (n : ℚ) = n := by
  unfold pyInt
  split
  · rw [← Int.cast_neg, Int.floor_intCast]; omega
  · exact Int.floor_intCast n

lemma pyInt_three_half (b : ℤ) (hb : 0 ≤ b) :
    pyInt ((b : ℚ) * (3 / 2)) = b + b / 2 := by
  rcases Int.even_or_odd b with ⟨k, hk⟩ | ⟨k, hk⟩
  · subst hk
    have harg : ((k + k : ℤ) : ℚ) * (3 / 2) = ((3 * k : ℤ) : ℚ) := by push_cast; ring
    rw [harg, pyInt_intCast]
    omega
  · subst hk
    have hk0 : 0 ≤ k := by omega
    have harg : ((2 * k + 1 : ℤ) : ℚ) * (3 / 2) = ((3 * k + 1 : ℤ) : ℚ) + 1 / 2 := by
      push_cast; ring
    rw [harg, pyInt_nonneg _ (by positivity)]
    have hfl : ⌊((3 * k + 1 : ℤ) : ℚ) + 1 / 2⌋ = 3 * k + 1 := by
      rw [Int.floor_eq_iff]
      constructor
      · push_cast; linarith
      · push_cast; linarith
    rw [hfl]; omega

/-- The emergency deposit computed by the code: `int(base * 1.5)` in
binary64, which truncates rather than rounds. -/
lemma emergency_deposit_eq (b : ℤ) (h0 : 0 < b) (h1 : b ≤ 2 ^ 51) :
    pyInt (fpRound (fpRound (b : ℚ) * (3 / 2))) = b + b / 2 := by
  rw [fpRound_int b h0 (by omega)]
  have h32 : (b : ℚ) * (3 / 2) = ((3 * b : ℤ) : ℚ) / 2 := by push_cast; ring
  rw [h32, fpRound_half_int (3 * b) (by omega)
    (by have : (2:ℤ) ^ 53 = 4 * 2 ^ 51 := by norm_num
        omega), ← h32]
  exact pyInt_three_half b h0.le

/-- C6 counterexample: with base price 9901 cents for `smart_lock`,
`select_service` with `urgency = emergency` stores
`int(9901 * 1.5) = 14851`, while `round(1.5 × 9901) = round(14851.5) =
14852`: the claimed equality fails on a fractional half-cent. -/
theorem select_service_deposit_truncates_half_cent :
    select_service_deposit [("smart_lock", 9901)] "smart_lock" "emergency" = 14851 ∧
    roundHalfEven ((3 / 2) * (9901 : ℚ)) = 14852 :=
  ⟨by decide, by decide⟩

/-- C6 amended: for every configured base-price map and service type with
`0 < base ≤ 2^51`, `select_service` with `urgency = emergency` stores
`deposit_amount = int(1.5 × base)` truncated toward zero, i.e.
`base + base / 2` — the fractional half-cent produced by an odd base is
dropped, not rounded — and stores exactly `base` for any other urgency. -/
theorem select_service_deposit_emergency (m : List (String × ℤ)) (st : String)
    (h0 : 0 < deposit_base m st) (h1 : deposit_base m st ≤ 2 ^ 51) :
    select_service_deposit m st "emergency"
        = deposit_base m st + deposit_base m st / 2 ∧
    ∀ u : String, u ≠ "emergency" → select_service_deposit m st u = deposit_base m st := by
  constructor
  · unfold select_service_deposit
    rw [if_pos rfl]
    exact emergency_deposit_eq _ h0 h1
  · intro u hu
    unfold select_service_deposit
    rw [if_neg hu]

/-- Witness for C6 (amended) at the default smart-lock base 9900:
emergency deposit `9900 + 4950 = 14850`, standard deposit 9900. -/
theorem select_service_deposit_emergency_witness :
    select_service_deposit deposit_amounts_default "smart_lock" "emergency" = 14850 ∧
    select_service_deposit deposit_amounts_default "smart_lock" "standard" = 9900 := by
  have h := select_service_deposit_emergency deposit_amounts_default "smart_lock"
    (by decide) (by decide)
  exact ⟨by rw [h.1]; decide, by rw [h.2 "standard" (by decide)]; decide⟩

/-! ## Price extraction (`twilio_sms_webhook`,
`apps/api/app/api/webhooks.py` lines 94-101)

Python: `price_match = re.search(r'\$?\s*(\d+(?:\.\d{2})?)', body)`.
Since the `\$?` and `\s*` prefixes are optional, the leftmost match's
group 1 is the first maximal digit run of the body, followed by `.dd`
when a dot and two digits immediately follow the run. Then
`price_dollars = float(price_str)`; `price_cents = int(price_dollars * 100)`
(binary64 product, truncated toward zero). -/

/-- Split a maximal leading digit run off a character list. -/
def digitRun : List Char → List Char × List Char
  | [] => ([], [])
  | c :: cs =>
    if c.isDigit then
      let p := digitRun cs
      (c :: p.1, p.2)
    else ([], c :: cs)

/-- Group 1 of the price regex: integer digits plus an optional
two-digit decimal part. -/
structure PriceMatch where
  intPart : List Char
  decPart : Option (Char × Char)
deriving DecidableEq, Repr

/-- `re.search(r'\$?\s*(\d+(?:\.\d{2})?)', body)`: scan for the first
digit, take the maximal digit run, and attach `.dd` when present. -/
def priceSearch : List Char → Option PriceMatch
  | [] => none
  | c :: cs =>
    if c.isDigit then
      let p := digitRun (c :: cs)
      match p.2 with
      | '.' :: d1 :: d2 :: _ =>
        if d1.isDigit && d2.isDigit then some ⟨p.1, some (d1, d2)⟩
        else some ⟨p.1, none⟩
      | _ => some ⟨p.1, none⟩
    else priceSearch cs

def digitVal (c : Char) : ℕ := c.toNat - '0'.toNat

def digitsToNat (l : List Char) : ℕ := l.foldl (fun n c => 10 * n + digitVal c) 0

/-- The exact rational value denoted by the matched price string
(`float()` of a decimal literal is the binary64 nearest to this value). -/
def pmToRat (pm : PriceMatch) : ℚ :=
  (digitsToNat pm.intPart : ℚ) +
    match pm.decPart with
    | none => 0
    | some p => ((10 * digitVal p.1 + digitVal p.2 : ℕ) : ℚ) / 100

/-- `price_cents = int(float(price_str) * 100)` in binary64. -/
def price_cents (q : ℚ) : ℤ := pyInt (fpRound (fpRound q * 100))

/-- Python `str.strip()` (surrounding whitespace removed), written over
the character list so that it reduces in the kernel. -/
def pyStrip (s : String) : String :=
  { data := ((s.data.dropWhile Char.isWhitespace).reverse.dropWhile
      Char.isWhitespace).reverse }

/-- Python `str.upper()` (ASCII; the command keywords are ASCII), written
over the character list so that it reduces in the kernel. -/
def pyUpper (s : String) : String :=
  { data := s.data.map Char.toUpper }

/-! ## Providers (`apps/api/app/models/locksmith.py`,
`apps/api/app/services/locksmith_service.py`,
`backend/app/schemas/locksmith.py`) -/

structure Locksmith where
  lid : ℕ
  display_name : String
  phone : String
  primary_city : String
  supports_home_lockout : Bool
  supports_car_lockout : Bool
  supports_rekey : Bool
  supports_smart_lock : Bool
  is_active : Bool
  is_available : Bool
deriving DecidableEq, Repr

/-- `Locksmith.supports_service` (`models/locksmith.py`). -/
def supports_service (lk : Locksmith) (service_type : String) : Bool :=
  if service_type = "home_lockout" then lk.supports_home_lockout
  else if service_type = "car_lockout" then lk.supports_car_lockout
  else if service_type = "rekey" then lk.supports_rekey
  else if service_type = "smart_lock" then lk.supports_smart_lock
  else false

/-- `LocksmithCreate` (`schemas/locksmith.py`): admin-supplied fields;
`is_active` and `is_available` both default to `True` but are client
controllable. -/
structure LocksmithCreate where
  display_name : String
  phone : String
  primary_city : String
  supports_home_lockout : Bool := false
  supports_car_lockout : Bool := false
  supports_rekey : Bool := false
  supports_smart_lock : Bool := false
  is_active : Bool := true
  is_available : Bool := true
deriving DecidableEq, Repr

/-- `LocksmithUpdate` (`schemas/locksmith.py`): all fields optional;
unset fields (`exclude_unset`) leave the row unchanged. -/
structure LocksmithUpdate where
  display_name : Option String := none
  phone : Option String := none
  primary_city : Option String := none
  supports_home_lockout : Option Bool := none
  supports_car_lockout : Option Bool := none
  supports_rekey : Option Bool := none
  supports_smart_lock : Option Bool := none
  is_active : Option Bool := none
  is_available : Option Bool := none
deriving DecidableEq, Repr

namespace LocksmithService

/-- `LocksmithService.create` (lines 20-38): writes the client-supplied
flags verbatim. -/
def create (lid : ℕ) (d : LocksmithCreate) : Locksmith :=
  { lid := lid
    display_name := d.display_name
    phone := d.phone
    primary_city := d.primary_city
    supports_home_lockout := d.supports_home_lockout
    supports_car_lockout := d.supports_car_lockout
    supports_rekey := d.supports_rekey
    supports_smart_lock := d.supports_smart_lock
    is_active := d.is_active
    is_available := d.is_available }

/-- `LocksmithService.update` (lines 96-108): `setattr` for each set
field, applied to the fetched row. -/
def update (lk : Locksmith) (u : LocksmithUpdate) : Locksmith :=
  { lk with
    display_name := u.display_name.getD lk.display_name
    phone := u.phone.getD lk.phone
    primary_city := u.primary_city.getD lk.primary_city
    supports_home_lockout := u.supports_home_lockout.getD lk.supports_home_lockout
    supports_car_lockout := u.supports_car_lockout.getD lk.supports_car_lockout
    supports_rekey := u.supports_rekey.getD lk.supports_rekey
    supports_smart_lock := u.supports_smart_lock.getD lk.supports_smart_lock
    is_active := u.is_active.getD lk.is_active
    is_available := u.is_available.getD lk.is_available }

/-- `LocksmithService.toggle_active` (lines 110-122): sets `is_active`;
deactivating also clears `is_available`. -/
def toggle_active (lk : Locksmith) (b : Bool) : Locksmith :=
  let lk1 := { lk with is_active := b }
  if b then lk1 else { lk1 with is_available := false }

/-- `LocksmithService.toggle_available` (lines 124-133): sets
`is_available` unconditionally, with no `is_active` check. -/
def toggle_available (lk : Locksmith) (b : Bool) : Locksmith :=
  { lk with is_available := b }

end LocksmithService

/-! ## The dispatch world (`backend/app/services/dispatch_service.py`)

Database state is modelled explicitly: lists of rows with integer ids,
the Redis assignment locks, the SMS outbox (the SMS gateway is modelled
as always succeeding: per-recipient send failures are logged and skipped
in the source and none of the claims concern them), and a logical clock
`now` standing for `datetime.utcnow()`. Rows keep their source column
names. -/

structure Offer where
  oid : ℕ
  job_id : Option ℕ
  request_session_id : Option ℕ
  locksmith_id : ℕ
  quoted_price : Option ℤ
  wave_number : ℕ
  status : OfferStatus
  twilio_message_sid : Option ℕ
  sent_at : ℕ
  responded_at : Option ℕ
  expires_at : Option ℕ
deriving DecidableEq, Repr

structure Job where
  jid : ℕ
  customer_name : String
  customer_phone : String
  service_type : String
  urgency : String
  address : String
  city : String
  status : JobStatus
  assigned_locksmith_id : Option ℕ
  assigned_at : Option ℕ
  current_wave : ℕ
  dispatch_started_at : Option ℕ
  request_session_id : Option ℕ
deriving DecidableEq, Repr

/-- The slice of a `RequestSession` row the webhook reads when notifying
the customer about a quote. -/
structure SessionRow where
  sid : ℕ
  customer_phone : Option String
deriving DecidableEq, Repr

/-- Explicit database + Redis + SMS-gateway state. -/
structure DB where
  locksmiths : List Locksmith
  jobs : List Job
  offers : List Offer
  sessions : List SessionRow
  locks : List (ℕ × ℕ)
  smsOutbox : List (String × String)
  nextId : ℕ
  now : ℕ
deriving DecidableEq, Repr

/-- Configuration (`backend/app/config.py`). -/
structure Settings where
  app_env : String := "development"
  stripe_secret_key : String := ""
  dispatch_wave_size : ℕ := 3
  dispatch_wave_delay_seconds : ℕ := 120
  service_areas : List String := ["San Francisco", "Oakland", "San Jose", "Laredo"]
  deposit_amounts : List (String × ℤ) := deposit_amounts_default
  frontend_url : String := "http://localhost:3000"
deriving Repr

def getJob (db : DB) (jid : ℕ) : Option Job :=
  db.jobs.find? fun j => j.jid == jid

/-- `LocksmithService.get_by_phone`. -/
def get_by_phone (db : DB) (phone : String) : Option Locksmith :=
  db.locksmiths.find? fun lk => lk.phone == phone

def updateJob (db : DB) (jid : ℕ) (f : Job → Job) : DB :=
  { db with jobs := db.jobs.map fun j => if j.jid = jid then f j else j }

def updateOffer (db : DB) (oid : ℕ) (f : Offer → Offer) : DB :=
  { db with offers := db.offers.map fun o => if o.oid = oid then f o else o }

/-- Append an outbound SMS; the returned message sid is its outbox index. -/
def send_sms (db : DB) (to_phone body : String) : DB × ℕ :=
  ({ db with smsOutbox := db.smsOutbox ++ [(to_phone, body)] }, db.smsOutbox.length)

/-- `LocksmithService.find_available_for_job` (lines 174-204): active,
available, exact city match, supports the service, not already contacted,
limited to `limit` rows (row order models the unspecified database
order). -/
def find_available_for_job (db : DB) (city service_type : String)
    (exclude_ids : List ℕ) (limit : ℕ) : List Locksmith :=
  (db.locksmiths.filter fun lk =>
    lk.is_active && lk.is_available && (lk.primary_city == city)
      && supports_service lk service_type && !(exclude_ids.contains lk.lid)).take limit

/-- Locksmith ids with an existing offer for this job (any status),
`dispatch_service.py` lines 68-72. -/
def contactedIds (db : DB) (jid : ℕ) : List ℕ :=
  (db.offers.filter fun o => o.job_id == some jid).map Offer.locksmith_id

/-- `DispatchService._build_offer_message` (lines 377-390). -/
def service_display_name (service_type : String) : String :=
  if service_type = "home_lockout" then "Home Lockout"
  else if service_type = "car_lockout" then "Car Lockout"
  else if service_type = "rekey" then "Lock Rekey"
  else if service_type = "smart_lock" then "Smart Lock Install"
  else service_type

def build_offer_message (job : Job) : String :=
  "New job! " ++ service_display_name job.service_type ++ " at " ++ job.city ++
    ". Reply YES to accept or NO to decline."

/-- The per-locksmith loop body of `send_wave` (lines 101-133): create a
Pending offer with an expiry, send the SMS, store the message sid. -/
def sendWaveOffers (cfg : Settings) (jid wave : ℕ) (msg : String) :
    DB → List Locksmith → DB
  | db, [] => db
  | db, lk :: rest =>
    let offer : Offer :=
      { oid := db.nextId
        job_id := some jid
        request_session_id := none
        locksmith_id := lk.lid
        quoted_price := none
        wave_number := wave
        status := OfferStatus.PENDING
        twilio_message_sid := none
        sent_at := db.now
        responded_at := none
        expires_at := some (db.now + cfg.dispatch_wave_delay_seconds) }
    let s := send_sms db lk.phone msg
    let offer := { offer with twilio_message_sid := some s.2 }
    sendWaveOffers cfg jid wave msg
      { s.1 with offers := s.1.offers ++ [offer], nextId := s.1.nextId + 1 } rest

/-- `DispatchService.send_wave` (lines 62-148). Returns the updated state
and the number of offers sent. -/
def send_wave (cfg : Settings) (db : DB) (jid : ℕ) : DB × ℕ :=
  match getJob db jid with
  | none => (db, 0)
  | some job =>
    if job.status = JobStatus.DISPATCHING ∨ job.status = JobStatus.OFFERED then
      let contacted := contactedIds db jid
      let available := find_available_for_job db job.city job.service_type
        contacted cfg.dispatch_wave_size
      if available.isEmpty then
        if contacted.isEmpty then
          (updateJob db jid fun j => { j with status := JobStatus.FAILED }, 0)
        else (db, 0)
      else
        let db1 := updateJob db jid fun j =>
          { j with current_wave := j.current_wave + 1, status := JobStatus.OFFERED }
        let db2 := sendWaveOffers cfg jid (job.current_wave + 1)
          (build_offer_message job) db1 available
        (db2, available.length)
    else (db, 0)

/-- `DispatchService.start_dispatch` (lines 38-60). -/
def start_dispatch (cfg : Settings) (db : DB) (jid : ℕ) : DB × Bool :=
  match getJob db jid with
  | none => (db, false)
  | some job =>
    if job.status = JobStatus.CREATED then
      let db1 := updateJob db jid fun j =>
        { j with status := JobStatus.DISPATCHING,
                 dispatch_started_at := some db.now, current_wave := 0 }
      ((send_wave cfg db1 jid).1, true)
    else (db, false)

/-- A service-layer reply `{"success": ..., "message": ...}`. -/
structure Reply where
  success : Bool
  message : String
deriving DecidableEq, Repr

/-- `ORDER BY sent_at DESC LIMIT 1` over a pre-filtered offer list: the
offer with the greatest `sent_at` (ties resolved by row order, which the
database leaves unspecified). -/
def mostRecentPending (offers : List Offer) : Option Offer :=
  offers.foldl
    (fun best o =>
      match best with
      | none => some o
      | some b => if b.sent_at < o.sent_at then some o else some b)
    none

/-- The refund-notice SMS body (`dispatch_service.py` line 314). -/
def refund_notice_body : String :=
  "We\x27re sorry, we couldn\x27t find an available locksmith. A refund will be processed."

/-- Whether the Redis key `job_assignment:<job_id>` is currently unheld
(`redis.set(..., nx=True)` succeeds). -/
def lockFree (db : DB) (jid : ℕ) : Bool :=
  !(db.locks.any fun p => p.1 == jid)

def releaseLock (db : DB) (jid : ℕ) : DB :=
  { db with locks := db.locks.filter fun p => !(p.1 == jid) }

/-- `DispatchService._accept_offer` (lines 189-266): acquire the
assignment lock, re-check the job status, accept, assign, cancel the
other Pending offers in a single statement, notify both parties, release
the lock. -/
def accept_offer (db : DB) (offer : Offer) (job : Job) (lk : Locksmith) :
    DB × Reply :=
  if lockFree db job.jid then
    let db0 := { db with locks := db.locks ++ [(job.jid, lk.lid)] }
    if job.status = JobStatus.DISPATCHING ∨ job.status = JobStatus.OFFERED then
      let db1 := updateOffer db0 offer.oid fun o =>
        { o with status := OfferStatus.ACCEPTED, responded_at := some db.now }
      let db2 := updateJob db1 job.jid fun j =>
        { j with assigned_locksmith_id := some lk.lid,
                 assigned_at := some db.now, status := JobStatus.ASSIGNED }
      let db3 := { db2 with offers := db2.offers.map fun o =>
        if (o.job_id = some job.jid ∧ o.oid ≠ offer.oid ∧ o.status = OfferStatus.PENDING)
        then { o with status := OfferStatus.CANCELED } else o }
      let s1 := send_sms db3 lk.phone
        ("Job confirmed! Customer: " ++ job.customer_name ++ " at " ++ job.address ++
          ". Please head there now.")
      let s2 := send_sms s1.1 job.customer_phone
        ("Good news! " ++ lk.display_name ++ " is on the way to help you.")
      (releaseLock s2.1 job.jid, ⟨true, "Job assigned successfully"⟩)
    else
      let db1 := updateOffer db0 offer.oid fun o =>
        { o with status := OfferStatus.CANCELED, responded_at := some db.now }
      (releaseLock db1 job.jid, ⟨false, "Job no longer available"⟩)
  else
    (updateOffer db offer.oid fun o =>
      { o with status := OfferStatus.CANCELED, responded_at := some db.now },
     ⟨false, "Job already assigned"⟩)

/-- `DispatchService._decline_offer` (lines 268-318): decline, and when no
Pending offer for the job remains and the job is Offered, try the next
wave; if nothing was sent, fail the job and queue the refund-notice SMS. -/
def decline_offer (cfg : Settings) (db : DB) (offer : Offer) (job : Job) :
    DB × Reply :=
  let db1 := updateOffer db offer.oid fun o =>
    { o with status := OfferStatus.DECLINED, responded_at := some db.now }
  let pending := db1.offers.filter fun o =>
    o.job_id == some job.jid && o.status == OfferStatus.PENDING
  if pending.isEmpty ∧ job.status = JobStatus.OFFERED then
    let s := send_wave cfg db1 job.jid
    if s.2 = 0 then
      let db3 := updateJob s.1 job.jid fun j => { j with status := JobStatus.FAILED }
      let s4 := send_sms db3 job.customer_phone refund_notice_body
      (s4.1, ⟨true, "Offer declined"⟩)
    else (s.1, ⟨true, "Offer declined"⟩)
  else (db1, ⟨true, "Offer declined"⟩)

/-- `DispatchService.handle_response` (lines 150-187): normalize, resolve
the locksmith, pick the most recent Pending offer (any scope), resolve
its job, and dispatch on YES/NO. -/
def handle_response (cfg : Settings) (db : DB) (locksmith_phone response : String) :
    DB × Reply :=
  let resp := pyUpper (pyStrip response)
  match get_by_phone db locksmith_phone with
  | none => (db, ⟨false, "Unknown phone number"⟩)
  | some lk =>
    match mostRecentPending (db.offers.filter fun o =>
        o.locksmith_id == lk.lid && o.status == OfferStatus.PENDING) with
    | none => (db, ⟨false, "No pending job offer"⟩)
    | some offer =>
      match offer.job_id.bind (getJob db) with
      | none => (db, ⟨false, "Job not found"⟩)
      | some job =>
        if resp = "YES" then accept_offer db offer job lk
        else if resp = "NO" then decline_offer cfg db offer job
        else (db, ⟨false, "Reply YES or NO"⟩)

/-- `DispatchService.restart_dispatch` (lines 347-375): cancel every
offer of the job (any status), reset the dispatch fields, start over. -/
def restart_dispatch (cfg : Settings) (db : DB) (jid : ℕ) : DB × Bool :=
  match getJob db jid with
  | none => (db, false)
  | some _ =>
    let db1 := { db with offers := db.offers.map fun o =>
      if (o.job_id = some jid) then { o with status := OfferStatus.CANCELED } else o }
    let db2 := updateJob db1 jid fun j =>
      { j with status := JobStatus.CREATED, current_wave := 0,
               dispatch_started_at := none, assigned_locksmith_id := none,
               assigned_at := none }
    start_dispatch cfg db2 jid

/-! ## Session engine (`apps/api/app/api/customer.py`)

Each endpoint is a function from the looked-up session (`none` models an
unknown id) and its external inputs to `Except ApiError RequestSession`.
An error return models the `HTTPException` raised before any write, so
the stored session is unchanged in that case (in the source every status
check precedes the first mutation except in `validate_location`, which
has no status check at all). The locksmith fan-out performed by
`select_service` after its commit touches offers and SMS only, never the
session row; it is modelled in the dispatch world. -/

structure RequestSession where
  sid : ℕ
  status : SessionStatus
  step_reached : ℕ
  customer_name : Option String
  customer_phone : Option String
  customer_email : Option String
  address : Option String
  city : Option String
  latitude : Option ℚ
  longitude : Option ℚ
  is_in_service_area : Option Bool
  service_type : Option String
  urgency : Option String
  description : Option String
  deposit_amount : Option ℤ
  car_make : Option String
  car_model : Option String
  car_year : Option ℕ
  stripe_payment_intent_id : Option String
  completed_at : Option ℕ
deriving DecidableEq, Repr

/-- `HTTPException`s raised by the customer endpoints. -/
inductive ApiError where
  | notFound (detail : String)
  | badRequest (detail : String)
deriving DecidableEq, Repr

/-- `LocationValidation` request schema (`schemas/request_session.py`). -/
structure LocationValidation where
  customer_name : String
  customer_phone : String
  customer_email : Option String := none
  address : Option String := none
  latitude : Option ℚ := none
  longitude : Option ℚ := none
  location_method : String := "address"
deriving DecidableEq, Repr

/-- Outcome of the geocoding `try` block of `validate_location`
(lines 98-131): either the block completes, leaving these values in the
local variables `address`, `city`, `latitude`, `longitude` (the
`city`/coordinate extraction from the Google Maps response is external
adapter behaviour), or an exception is raised (`failure`). -/
inductive GeoOutcome where
  | ok (address : Option String) (city : Option String)
      (latitude longitude : Option ℚ)
  | failure
deriving DecidableEq, Repr

/-- The service-area membership test of `validate_location`
(lines 133-139): both sides stripped of surrounding whitespace, compared
with `==` — hence case-sensitively. -/
def service_area_check (cfg : Settings) (city : String) : Bool :=
  (cfg.service_areas.map pyStrip).contains (pyStrip city)

/-- Python truthiness of an optional float (`latitude and longitude`):
`None` and `0.0` are falsy. -/
def qTruthy : Option ℚ → Bool
  | none => false
  | some x => x != 0

/-- The dev-fallback pin address (Python formats the coordinates with
`{:.6f}`; the exact text is irrelevant to every claim). -/
def pinAddress (lat lng : ℚ) : String :=
  "Pin at " ++ toString lat ++ ", " ++ toString lng

/-- Locals of `validate_location` after the `try` block. -/
structure GeoLocals where
  address : Option String
  city : Option String
  latitude : Option ℚ
  longitude : Option ℚ
  is_in_service_area : Bool
deriving DecidableEq, Repr

/-- `validate_location` (`customer.py` lines 63-177): looks up the
session (404 if unknown), writes the customer info, geocodes, checks the
service area, writes the location fields and transitions to
`LOCATION_VALIDATED` or `LOCATION_REJECTED`. There is no check of the
current session status. -/
def validate_location (cfg : Settings) (sess : Option RequestSession)
    (data : LocationValidation) (geo : GeoOutcome) :
    Except ApiError RequestSession :=
  match sess with
  | none => Except.error (ApiError.notFound "Session not found")
  | some s =>
    let s1 := { s with customer_name := some data.customer_name,
                       customer_phone := some data.customer_phone,
                       customer_email := data.customer_email }
    let r : GeoLocals :=
      match geo with
      | GeoOutcome.ok addr city lat lng =>
        { address := addr, city := city, latitude := lat, longitude := lng,
          is_in_service_area :=
            match city with
            | some c => service_area_check cfg c
            | none => false }
      | GeoOutcome.failure =>
        if cfg.app_env = "development" then
          { address :=
              if data.location_method = "pin" && qTruthy data.latitude
                  && qTruthy data.longitude then
                some (pinAddress (data.latitude.getD 0) (data.longitude.getD 0))
              else data.address,
            city := some "Laredo", latitude := data.latitude,
            longitude := data.longitude, is_in_service_area := true }
        else
          { address := data.address, city := none, latitude := data.latitude,
            longitude := data.longitude, is_in_service_area := false }
    Except.ok { s1 with
      address := r.address, city := r.city, latitude := r.latitude,
      longitude := r.longitude, is_in_service_area := some r.is_in_service_area,
      status := if r.is_in_service_area then SessionStatus.LOCATION_VALIDATED
                else SessionStatus.LOCATION_REJECTED }

/-- `ServiceSelection` request schema (`schemas/request_session.py`). -/
structure ServiceSelection where
  service_type : String
  urgency : String := "standard"
  description : Option String := none
  car_make : Option String := none
  car_model : Option String := none
  car_year : Option ℕ := none
deriving DecidableEq, Repr

/-- `select_service` (`customer.py` lines 180-328), session part:
requires `LOCATION_VALIDATED` (400 otherwise), computes the deposit,
writes the service fields and transitions to `PENDING_APPROVAL`. -/
def select_service (cfg : Settings) (sess : Option RequestSession)
    (data : ServiceSelection) : Except ApiError RequestSession :=
  match sess with
  | none => Except.error (ApiError.notFound "Session not found")
  | some s =>
    if s.status ≠ SessionStatus.LOCATION_VALIDATED then
      Except.error (ApiError.badRequest "Location must be validated first")
    else
      let deposit := select_service_deposit cfg.deposit_amounts
        data.service_type data.urgency
      let s1 := { s with
        service_type := some data.service_type, urgency := some data.urgency,
        description := data.description, deposit_amount := some deposit,
        step_reached := 2, status := SessionStatus.PENDING_APPROVAL }
      let s2 :=
        if data.service_type = "car_lockout" then
          { s1 with car_make := data.car_make, car_model := data.car_model,
                    car_year := data.car_year }
        else s1
      Except.ok s2

/-- `create_payment_intent` (`customer.py` lines 410-465): requires
`SERVICE_SELECTED` or `PENDING_APPROVAL` and a truthy deposit; stores the
intent id (a dev dummy when Stripe is unconfigured in development) and
transitions to `PAYMENT_PENDING`. -/
def create_payment_intent (cfg : Settings) (sess : Option RequestSession)
    (stripe_intent_id : String) : Except ApiError RequestSession :=
  match sess with
  | none => Except.error (ApiError.notFound "Session not found")
  | some s =>
    if ¬(s.status = SessionStatus.SERVICE_SELECTED
        ∨ s.status = SessionStatus.PENDING_APPROVAL) then
      Except.error (ApiError.badRequest "Service must be selected first")
    else if s.deposit_amount = none ∨ s.deposit_amount = some 0 then
      Except.error (ApiError.badRequest "Deposit amount not set")
    else
      let intent :=
        if cfg.app_env == "development" && cfg.stripe_secret_key == "" then
          "dev_pi_" ++ toString s.sid
        else stripe_intent_id
      Except.ok { s with stripe_payment_intent_id := some intent,
                         status := SessionStatus.PAYMENT_PENDING,
                         step_reached := 3 }

/-- `complete_request` (`customer.py` lines 468-537) together with
`JobService.create_from_session` (which sets the session to
`PAYMENT_COMPLETED` with `completed_at`): requires `PAYMENT_PENDING` or
`SERVICE_SELECTED`; outside development a confirmed payment intent is
required. The job snapshot and dispatch start live in the dispatch
world. -/
def complete_request (cfg : Settings) (sess : Option RequestSession)
    (payment_confirmed : Bool) (now : ℕ) : Except ApiError RequestSession :=
  match sess with
  | none => Except.error (ApiError.notFound "Session not found")
  | some s =>
    if ¬(s.status = SessionStatus.PAYMENT_PENDING
        ∨ s.status = SessionStatus.SERVICE_SELECTED) then
      Except.error (ApiError.badRequest "Invalid session status")
    else
      let dev := cfg.app_env == "development" && cfg.stripe_secret_key == ""
      let s1 :=
        if dev && s.stripe_payment_intent_id.isNone then
          { s with stripe_payment_intent_id := some ("dev_pi_" ++ toString s.sid) }
        else s
      if !dev && s1.stripe_payment_intent_id.isNone then
        Except.error (ApiError.badRequest "No payment intent found")
      else if !dev && !payment_confirmed then
        Except.error (ApiError.badRequest "Payment not confirmed")
      else
        Except.ok { s1 with status := SessionStatus.PAYMENT_COMPLETED,
                            completed_at := some now }

/-! ## Inbound Twilio SMS webhook (`apps/api/app/api/webhooks.py`
lines 22-217)

The webhook normalizes the body (`strip().upper()`), resolves the sender
to a locksmith and dispatches on the command. The `float(price_str)`
conversion cannot raise for a string matched by the price regex, so the
`except ValueError` branch is dead code. The customer-notification SMS
body interpolates the quote amount; its text is irrelevant to every
claim and is abbreviated here. -/

def quote_notification_body (cfg : Settings) (locksmith_name : String)
    (sid : ℕ) : String :=
  "Great news! You\x27ve received a quote from " ++ locksmith_name ++
    ". View all quotes: " ++ cfg.frontend_url ++ "/request/offers?session=" ++
    toString sid

def db_toggle_available (db : DB) (lid : ℕ) (b : Bool) : DB :=
  { db with locksmiths := db.locksmiths.map fun lk =>
      if lk.lid = lid then LocksmithService.toggle_available lk b else lk }

def db_toggle_active (db : DB) (lid : ℕ) (b : Bool) : DB :=
  { db with locksmiths := db.locksmiths.map fun lk =>
      if lk.lid = lid then LocksmithService.toggle_active lk b else lk }

/-- The session-scoped Pending offers of a locksmith
(`JobOffer.request_session_id.isnot(None)` filter of the webhook). -/
def sessionPendingOffers (db : DB) (lid : ℕ) : List Offer :=
  db.offers.filter fun o =>
    o.locksmith_id == lid && o.status == OfferStatus.PENDING
      && o.request_session_id.isSome

/-- `twilio_sms_webhook` (`webhooks.py` lines 22-217). Returns the new
state and the TwiML reply message. -/
def twilio_sms_webhook (cfg : Settings) (db : DB) (From RawBody : String) :
    DB × String :=
  let body := pyUpper (pyStrip RawBody)
  match get_by_phone db From with
  | none =>
    if body = "STOP" then
      if db.sessions.any (fun srow => srow.customer_phone == some From) then
        (db, "You have been unsubscribed from SMS messages. You will no longer receive updates about your service requests.")
      else
        (db, "You have been unsubscribed. If you need assistance, please contact support.")
    else (db, "Unknown number. Contact support if you\x27re a locksmith.")
  | some lk =>
    if body.data.head? = some 'Y' then
      match priceSearch body.data with
      | some pm =>
        let cents := price_cents (pmToRat pm)
        match mostRecentPending (sessionPendingOffers db lk.lid) with
        | some offer =>
          let db1 := updateOffer db offer.oid fun o =>
            { o with status := OfferStatus.ACCEPTED, quoted_price := some cents,
                     responded_at := some db.now }
          let db2 :=
            match offer.request_session_id with
            | some sid =>
              match db1.sessions.find? (fun srow => srow.sid == sid) with
              | some srow =>
                match srow.customer_phone with
                | some cp =>
                  (send_sms db1 cp (quote_notification_body cfg lk.display_name sid)).1
                | none => db1
              | none => db1
            | none => db1
          (db2, "Quote received. Customer will be notified.")
        | none =>
          let r := handle_response cfg db From "YES"
          (r.1, r.2.message)
      | none => (db, "Please include price. Reply: Y $[price] (e.g., Y $150)")
    else if body = "NO" ∨ body = "N" then
      match mostRecentPending (sessionPendingOffers db lk.lid) with
      | some offer =>
        let db1 := updateOffer db offer.oid fun o =>
          { o with status := OfferStatus.DECLINED, responded_at := some db.now }
        (db1, "Offer declined. Thank you for your response.")
      | none =>
        let r := handle_response cfg db From "NO"
        (r.1, r.2.message)
    else if body = "AVAILABLE" then
      (db_toggle_available db lk.lid true, "You\x27re now available for job offers.")
    else if body = "UNAVAILABLE" then
      (db_toggle_available db lk.lid false,
        "You\x27ve paused job offers. Reply AVAILABLE to resume.")
    else if body = "STOP" then
      (db_toggle_active db lk.lid false,
        "You\x27ve been deactivated. Contact support to reactivate.")
    else (db, "Reply like Y $100 to quote, N to decline. Give your own price.")

/-! ## Derived state observations -/

/-- Number of Accepted offers a job has. -/
def countAcceptedJob (db : DB) (jid : ℕ) : ℕ :=
  db.offers.countP fun o => o.job_id == some jid && o.status == OfferStatus.ACCEPTED

/-- The status of the (unique) offer with a given id. -/
def offerStatusIn (db : DB) (oid : ℕ) : Option OfferStatus :=
  (db.offers.find? fun o => o.oid == oid).map Offer.status

/-- The provider invariant of §3: `¬is_active ⇒ ¬is_available`. -/
def availInv (lk : Locksmith) : Prop :=
  lk.is_active = false → lk.is_available = false

instance (lk : Locksmith) : Decidable (availInv lk) :=
  if h : lk.is_active = false then
    if h2 : lk.is_available = false then isTrue fun _ => h2
    else isFalse fun f => h2 (f h)
  else isTrue fun hf => absurd hf h

/-! ## Generic helpers for keyed row updates -/

lemma find?_key_map {α : Type} (l : List α) (key : α → ℕ) (g : α → α)
    (hg : ∀ a, key (g a) = key a) (k : ℕ) :
    (l.map g).find? (fun a => key a == k) = (l.find? (fun a => key a == k)).map g := by
  induction l with
  | nil => rfl
  | cons a t ih =>
    simp only [List.map_cons, List.find?_cons, hg]
    cases hb : (key a == k) <;> simp [hb, ih]

lemma find?_key_self {α : Type} (l : List α) (key : α → ℕ)
    (hn : (l.map key).Nodup) (a : α) (ha : a ∈ l) :
    l.find? (fun x => key x == key a) = some a := by
  induction l with
  | nil => cases ha
  | cons b t ih =>
    rw [List.map_cons, List.nodup_cons] at hn
    rcases List.mem_cons.mp ha with rfl | hat
    · simp [List.find?_cons]
    · have hne : (key b == key a) = false := by
        simp only [beq_eq_false_iff_ne, ne_eq]
        exact fun h => hn.1 (h ▸ List.mem_map_of_mem key hat)
      simp only [List.find?_cons, hne]
      exact ih hn.2 hat

lemma countP_key_one {α : Type} (l : List α) (key : α → ℕ)
    (hn : (l.map key).Nodup) (a : α) (ha : a ∈ l) :
    l.countP (fun x => key x == key a) = 1 := by
  induction l with
  | nil => cases ha
  | cons b t ih =>
    rw [List.map_cons, List.nodup_cons] at hn
    rcases List.mem_cons.mp ha with rfl | hat
    · rw [List.countP_cons]
      have ht : t.countP (fun x => key x == key a) = 0 := by
        rw [List.countP_eq_zero]
        intro x hx
        simp only [beq_iff_eq]
        exact fun h => hn.1 (h ▸ List.mem_map_of_mem key hx)
      simp [ht]
    · have hne : (key b == key a) = false := by
        simp only [beq_eq_false_iff_ne, ne_eq]
        exact fun h => hn.1 (h ▸ List.mem_map_of_mem key hat)
      rw [List.countP_cons, ih hn.2 hat, hne]
      simp

lemma filter_map_eq_of_pres {α β : Type} (l : List α) (g : α → α) (p : α → Bool)
    (v : α → β) (hp : ∀ a ∈ l, p (g a) = p a) (hv : ∀ a ∈ l, v (g a) = v a) :
    ((l.map g).filter p).map v = (l.filter p).map v := by
  induction l with
  | nil => rfl
  | cons a t ih =>
    have hpa := hp a (List.mem_cons_self a t)
    have hva := hv a (List.mem_cons_self a t)
    have iht := ih (fun x hx => hp x (List.mem_cons_of_mem a hx))
      (fun x hx => hv x (List.mem_cons_of_mem a hx))
    simp only [List.map_cons, List.filter_cons, hpa]
    cases hb : p a <;> simp [hb, iht, hva]

lemma mostRecentPending_shape (l : List Offer) (o : Offer) : ∀ acc : Option Offer,
    l.foldl (fun best x =>
      match best with
      | none => some x
      | some b => if b.sent_at < x.sent_at then some x else some b) acc = some o →
    acc = some o ∨ o ∈ l := by
  induction l with
  | nil => exact fun acc h => Or.inl h
  | cons a t ih =>
    intro acc h
    rw [List.foldl_cons] at h
    rcases ih _ h with hstep | hmem
    · cases acc with
      | none =>
        have ha : some a = some o := hstep
        obtain rfl : a = o := by injection ha
        exact Or.inr (List.mem_cons_self a t)
      | some b =>
        by_cases hlt : b.sent_at < a.sent_at
        · have ha : some a = some o := by simpa [hlt] using hstep
          obtain rfl : a = o := by injection ha
          exact Or.inr (List.mem_cons_self a t)
        · have hb : some b = some o := by simpa [hlt] using hstep
          exact Or.inl hb
    · exact Or.inr (List.mem_cons_of_mem a hmem)

lemma mostRecentPending_mem (l : List Offer) (o : Offer)
    (h : mostRecentPending l = some o) : o ∈ l := by
  rcases mostRecentPending_shape l o none h with hc | hm
  · cases hc
  · exact hm

lemma contains_of_mem {a : String} {l : List String} (h : a ∈ l) :
    l.contains a = true :=
  List.elem_eq_true_of_mem h

lemma getJob_updateJob (db : DB) (jid : ℕ) (f : Job → Job)
    (hf : ∀ j, (f j).jid = j.jid) :
    getJob (updateJob db jid f) jid = (getJob db jid).map f := by
  unfold getJob updateJob
  have hg : ∀ j : Job, (if j.jid = jid then f j else j).jid = j.jid := by
    intro j; split
    · exact hf j
    · rfl
  rw [show (({ db with jobs := db.jobs.map fun j => if j.jid = jid then f j else j } : DB).jobs)
      = db.jobs.map (fun j => if j.jid = jid then f j else j) from rfl,
    find?_key_map db.jobs Job.jid _ hg jid]
  cases hfind : db.jobs.find? (fun j => j.jid == jid) with
  | none => rfl
  | some j0 =>
    have := List.find?_some hfind
    have hj0 : j0.jid = jid := by simpa using this
    simp [hj0]

lemma find?_updateOffer (db : DB) (k : ℕ) (f : Offer → Offer)
    (hf : ∀ o, (f o).oid = o.oid) (k' : ℕ) :
    (updateOffer db k f).offers.find? (fun o => o.oid == k')
      = (db.offers.find? (fun o => o.oid == k')).map fun o =>
          if o.oid = k then f o else o := by
  unfold updateOffer
  have hg : ∀ o : Offer, (if o.oid = k then f o else o).oid = o.oid := by
    intro o; split
    · exact hf o
    · rfl
  exact find?_key_map db.offers Offer.oid _ hg k'

/-! ## Concrete fixtures used by witnesses and counterexamples -/

/-- All-default configuration (`Settings()` from the environment defaults). -/
def cfg0 : Settings := {}

def lkActive : Locksmith :=
  { lid := 1, display_name := "Bob", phone := "+19565550100",
    primary_city := "Laredo", supports_home_lockout := true,
    supports_car_lockout := false, supports_rekey := false,
    supports_smart_lock := false, is_active := true, is_available := true }

/-- A provider who texted `STOP` (deactivated, hence also unavailable). -/
def lkDeactivated : Locksmith :=
  { lkActive with is_active := false, is_available := false }

def emptySession : RequestSession :=
  { sid := 1, status := SessionStatus.STARTED, step_reached := 1,
    customer_name := none, customer_phone := none, customer_email := none,
    address := none, city := none, latitude := none, longitude := none,
    is_in_service_area := none, service_type := none, urgency := none,
    description := none, deposit_amount := none, car_make := none,
    car_model := none, car_year := none, stripe_payment_intent_id := none,
    completed_at := none }

def completedSession : RequestSession :=
  { emptySession with status := SessionStatus.PAYMENT_COMPLETED, step_reached := 3 }

def locData : LocationValidation :=
  { customer_name := "Jane", customer_phone := "+19565550101",
    address := some "123 Main St, Laredo" }

/-! ## C8 — the provider availability invariant -/

def dbC8 : DB :=
  { locksmiths := [lkDeactivated], jobs := [], offers := [], sessions := [],
    locks := [], smsOutbox := [], nextId := 1, now := 0 }

/-- C8 counterexample: a deactivated provider texting `AVAILABLE` reaches
`toggle_available(id, True)`, which sets `is_available` without checking
`is_active`: the resulting row has `is_active = false ∧ is_available =
true`, violating `¬is_active ⇒ ¬is_available`. -/
theorem available_sms_breaks_invariant :
    availInv lkDeactivated ∧
    ((twilio_sms_webhook cfg0 dbC8 "+19565550100" "AVAILABLE").1.locksmiths.map
      fun lk => (lk.is_active, lk.is_available)) = [(false, true)] :=
  ⟨by decide, by decide⟩

/-- C8 amended: the invariant `¬is_active ⇒ ¬is_available` is enforced
only by `toggle_active` (deactivating also clears availability); it is
preserved by `toggle_available` only for an active provider and by
`update` only when the update touches neither flag. `create`, `update`
with flag fields, and `toggle_available(-, true)` on an inactive provider
(the `AVAILABLE` SMS path) can break it. -/
theorem locksmith_invariant_guards (lk : Locksmith) (u : LocksmithUpdate)
    (b : Bool) (hinv : availInv lk)
    (hua : u.is_active = none) (huv : u.is_available = none) :
    availInv (LocksmithService.toggle_active lk b) ∧
    (lk.is_active = true → availInv (LocksmithService.toggle_available lk b)) ∧
    availInv (LocksmithService.update lk u) := by
  refine ⟨?_, ?_, ?_⟩
  · unfold LocksmithService.toggle_active availInv
    cases b <;> simp
  · intro ha
    unfold LocksmithService.toggle_available availInv
    simp [ha]
  · unfold LocksmithService.update availInv
    rw [hua, huv]
    simpa using hinv

/-- Witness for C8 (amended): deactivating an active provider leaves the
invariant intact. -/
theorem locksmith_invariant_guards_witness :
    availInv (LocksmithService.toggle_active lkActive false) ∧
    availInv (LocksmithService.update lkActive {}) :=
  ⟨(locksmith_invariant_guards lkActive {} false (by decide) rfl rfl).1,
   (locksmith_invariant_guards lkActive {} false (by decide) rfl rfl).2.2⟩

/-! ## C5 — service-area comparison -/

/-- C5 counterexample: the geocoded city `"LAREDO"` differs from the
configured area `"Laredo"` only in letter case, yet `validate_location`
places the session in `LOCATION_REJECTED` with `is_in_service_area =
false`: the membership test strips whitespace but compares
case-sensitively. -/
theorem service_area_check_case_sensitive :
    "Laredo" ∈ cfg0.service_areas ∧
    pyUpper "Laredo" = "LAREDO" ∧
    ((validate_location cfg0 (some emptySession) locData
        (GeoOutcome.ok (some "123 Main St, Laredo, TX") (some "LAREDO")
          (some 27) (some (-99)))).toOption.map
      fun s => (s.status, s.is_in_service_area))
      = some (SessionStatus.LOCATION_REJECTED, some false) :=
  ⟨by decide, by decide, by decide⟩

/-- C5 amended: membership in the configured service-area set is decided
after trimming whitespace on both sides but case-sensitively: a geocoded
city whose trimmed form equals (byte-for-byte) the trimmed form of a
configured area is placed in `LOCATION_VALIDATED` with
`is_in_service_area = true`. -/
theorem validate_location_service_area_trimmed (cfg : Settings)
    (s : RequestSession) (data : LocationValidation) (addr : Option String)
    (c a : String) (lat lng : Option ℚ)
    (ha : a ∈ cfg.service_areas) (heq : pyStrip c = pyStrip a) :
    (validate_location cfg (some s) data
        (GeoOutcome.ok addr (some c) lat lng)).toOption.map
      (fun s' => (s'.status, s'.is_in_service_area))
      = some (SessionStatus.LOCATION_VALIDATED, some true) := by
  have hchk : service_area_check cfg c = true := by
    unfold service_area_check
    rw [heq]
    exact contains_of_mem (List.mem_map_of_mem pyStrip ha)
  simp only [validate_location, hchk, Except.toOption, Option.map]
  rfl

/-- Witness for C5 (amended): `"  Laredo "` (whitespace around a
configured area) validates. -/
theorem validate_location_service_area_trimmed_witness :
    (validate_location cfg0 (some emptySession) locData
        (GeoOutcome.ok none (some "  Laredo ") none none)).toOption.map
      (fun s' => (s'.status, s'.is_in_service_area))
      = some (SessionStatus.LOCATION_VALIDATED, some true) :=
  validate_location_service_area_trimmed cfg0 emptySession locData none
    "  Laredo " "Laredo" none none (by decide) (by decide)

/-! ## C2 — session status machine -/

/-- C2 counterexample: `validate_location` has no status precondition:
invoked on a session already in the terminal status `PAYMENT_COMPLETED`
it succeeds and moves the session to `LOCATION_VALIDATED`, which is
neither "requires Started" nor an edge of the §4.1 machine. -/
theorem validate_location_ignores_status :
    completedSession.status = SessionStatus.PAYMENT_COMPLETED ∧
    ((validate_location cfg0 (some completedSession) locData
        (GeoOutcome.ok (some "123 Main St") (some "Laredo") (some 27)
          (some (-99)))).toOption.map RequestSession.status)
      = some SessionStatus.LOCATION_VALIDATED :=
  ⟨rfl, by decide⟩

/-- C2 amended: unknown session ids fail with 404 for every endpoint, and
`select_service` / `create_payment_intent` / `complete_request` enforce
their status preconditions with 400 (the session unchanged, as the
exception is raised before any write); on success they move along the
expected edges (`complete_request` also accepts `SERVICE_SELECTED`, the
dev skip-payment path). `validate_location`, however, checks no status at
all: from any current status it succeeds and lands in
`LOCATION_VALIDATED` or `LOCATION_REJECTED`. -/
theorem session_engine_preconditions (cfg : Settings) (s : RequestSession)
    (data : LocationValidation) (geo : GeoOutcome) (sel : ServiceSelection)
    (intent : String) (pc : Bool) (now : ℕ) :
    (validate_location cfg none data geo
        = Except.error (ApiError.notFound "Session not found")
      ∧ select_service cfg none sel
        = Except.error (ApiError.notFound "Session not found")
      ∧ create_payment_intent cfg none intent
        = Except.error (ApiError.notFound "Session not found")
      ∧ complete_request cfg none pc now
        = Except.error (ApiError.notFound "Session not found"))
    ∧ (s.status ≠ SessionStatus.LOCATION_VALIDATED →
        select_service cfg (some s) sel
          = Except.error (ApiError.badRequest "Location must be validated first"))
    ∧ (¬(s.status = SessionStatus.SERVICE_SELECTED
          ∨ s.status = SessionStatus.PENDING_APPROVAL) →
        create_payment_intent cfg (some s) intent
          = Except.error (ApiError.badRequest "Service must be selected first"))
    ∧ (¬(s.status = SessionStatus.PAYMENT_PENDING
          ∨ s.status = SessionStatus.SERVICE_SELECTED) →
        complete_request cfg (some s) pc now
          = Except.error (ApiError.badRequest "Invalid session status"))
    ∧ (∃ s', validate_location cfg (some s) data geo = Except.ok s'
        ∧ (s'.status = SessionStatus.LOCATION_VALIDATED
            ∨ s'.status = SessionStatus.LOCATION_REJECTED))
    ∧ (∀ s', select_service cfg (some s) sel = Except.ok s' →
        s.status = SessionStatus.LOCATION_VALIDATED
          ∧ s'.status = SessionStatus.PENDING_APPROVAL)
    ∧ (∀ s', create_payment_intent cfg (some s) intent = Except.ok s' →
        (s.status = SessionStatus.SERVICE_SELECTED
            ∨ s.status = SessionStatus.PENDING_APPROVAL)
          ∧ s'.status = SessionStatus.PAYMENT_PENDING)
    ∧ (∀ s', complete_request cfg (some s) pc now = Except.ok s' →
        (s.status = SessionStatus.PAYMENT_PENDING
            ∨ s.status = SessionStatus.SERVICE_SELECTED)
          ∧ s'.status = SessionStatus.PAYMENT_COMPLETED) := by
  refine ⟨⟨rfl, rfl, rfl, rfl⟩, ?_, ?_, ?_, ?_, ?_, ?_, ?_⟩
  · intro h
    simp [select_service, h]
  · intro h
    simp [create_payment_intent, h]
  · intro h
    simp [complete_request, h]
  · simp only [validate_location]
    refine ⟨_, rfl, ?_⟩
    split <;> simp
  · intro s'
    by_cases h : s.status = SessionStatus.LOCATION_VALIDATED
    · intro hok
      refine ⟨h, ?_⟩
      simp only [select_service, ne_eq, h, not_true_eq_false, if_false,
        Except.ok.injEq] at hok
      subst hok
      split <;> rfl
    · intro hok
      simp [select_service, h] at hok
  · intro s'
    by_cases h : s.status = SessionStatus.SERVICE_SELECTED
        ∨ s.status = SessionStatus.PENDING_APPROVAL
    · intro hok
      refine ⟨h, ?_⟩
      simp only [create_payment_intent, h, not_true_eq_false, if_false] at hok
      split at hok
      · simp at hok
      · rw [Except.ok.injEq] at hok
        subst hok
        rfl
    · intro hok
      simp [create_payment_intent, h] at hok
  · intro s'
    by_cases h : s.status = SessionStatus.PAYMENT_PENDING
        ∨ s.status = SessionStatus.SERVICE_SELECTED
    · intro hok
      refine ⟨h, ?_⟩
      simp only [complete_request, h, not_true_eq_false, if_false] at hok
      split at hok
      all_goals try split at hok
      all_goals try split at hok
      all_goals
        first
          | (rw [Except.ok.injEq] at hok; subst hok; rfl)
          | exact absurd hok (by simp)
    · intro hok
      simp [complete_request, h] at hok

/-- Witness for C2 (amended) on a `STARTED` session: `select_service` is
refused with 400, `validate_location` of an unknown session with 404. -/
theorem session_engine_preconditions_witness :
    select_service cfg0 (some emptySession) { service_type := "home_lockout" }
      = Except.error (ApiError.badRequest "Location must be validated first")
    ∧ validate_location cfg0 none locData GeoOutcome.failure
      = Except.error (ApiError.notFound "Session not found") :=
  ⟨(session_engine_preconditions cfg0 emptySession locData GeoOutcome.failure
      { service_type := "home_lockout" } "pi" true 0).2.1 (by decide),
   (session_engine_preconditions cfg0 emptySession locData GeoOutcome.failure
      { service_type := "home_lockout" } "pi" true 0).1.1⟩


/-! ## C4 / C7 — inbound `Y` replies -/

def jobOffered : Job :=
  { jid := 1, customer_name := "Jane", customer_phone := "+19565550101",
    service_type := "home_lockout", urgency := "standard",
    address := "123 Main St", city := "Laredo", status := JobStatus.OFFERED,
    assigned_locksmith_id := none, assigned_at := none, current_wave := 1,
    dispatch_started_at := some 0, request_session_id := none }

/-- A job-scoped Pending offer for `lkActive`. -/
def offerJobScoped : Offer :=
  { oid := 1, job_id := some 1, request_session_id := none, locksmith_id := 1,
    quoted_price := none, wave_number := 1, status := OfferStatus.PENDING,
    twilio_message_sid := some 0, sent_at := 0, responded_at := none,
    expires_at := some 120 }

def dbC4 : DB :=
  { locksmiths := [lkActive], jobs := [jobOffered], offers := [offerJobScoped],
    sessions := [], locks := [], smsOutbox := [], nextId := 2, now := 5 }

/-- C4 counterexample: the provider has only a job-scoped Pending offer,
yet the reply `Y` (no price) is answered with the price-format error and
changes nothing — the job-assignment path does not run, contradicting
"treated as an acceptance with no price required". -/
theorem webhook_bare_Y_is_format_error :
    twilio_sms_webhook cfg0 dbC4 "+19565550100" "Y"
      = (dbC4, "Please include price. Reply: Y $[price] (e.g., Y $150)")
    ∧ offerStatusIn dbC4 1 = some OfferStatus.PENDING :=
  ⟨by decide, by decide⟩

lemma mem_updateOffer_oid (db : DB) (k : ℕ) (f : Offer → Offer)
    (o : Offer) (ho : o ∈ (updateOffer db k f).offers) (hoid : o.oid = k) :
    ∃ a ∈ db.offers, a.oid = k ∧ o = f a := by
  unfold updateOffer at ho
  rcases List.mem_map.mp ho with ⟨a, ha, hga⟩
  by_cases h : a.oid = k
  · exact ⟨a, ha, h, by rw [← hga, if_pos h]⟩
  · rw [if_neg h] at hga
    subst hga
    exact absurd hoid h

/-- C4 amended: for a reply whose normalized body begins with `Y`:
if the body contains no price match the webhook replies with the
format-error message and changes nothing, regardless of which offers the
provider has — a bare `Y` never triggers the job path; if a price is
present and a session-scoped Pending offer exists, the most recent one is
set to `Accepted` with the parsed price; if a price is present but no
session-scoped Pending offer exists, the job-assignment path
(`handle_response` with `YES`) runs. -/
theorem webhook_Y_routing (cfg : Settings) (db : DB) (lk : Locksmith)
    (From RawBody : String)
    (hlk : get_by_phone db From = some lk)
    (hY : (pyUpper (pyStrip RawBody)).data.head? = some 'Y') :
    (priceSearch (pyUpper (pyStrip RawBody)).data = none →
      twilio_sms_webhook cfg db From RawBody
        = (db, "Please include price. Reply: Y $[price] (e.g., Y $150)"))
    ∧ (∀ pm, priceSearch (pyUpper (pyStrip RawBody)).data = some pm →
        mostRecentPending (sessionPendingOffers db lk.lid) = none →
        twilio_sms_webhook cfg db From RawBody
          = ((handle_response cfg db From "YES").1,
             (handle_response cfg db From "YES").2.message))
    ∧ (∀ pm offer, priceSearch (pyUpper (pyStrip RawBody)).data = some pm →
        mostRecentPending (sessionPendingOffers db lk.lid) = some offer →
        ∀ o ∈ (twilio_sms_webhook cfg db From RawBody).1.offers,
          o.oid = offer.oid →
          o.status = OfferStatus.ACCEPTED
            ∧ o.quoted_price = some (price_cents (pmToRat pm))) := by
  refine ⟨?_, ?_, ?_⟩
  · intro hnone
    simp only [twilio_sms_webhook, hlk, hY, hnone]
    simp
  · intro pm hpm hmre
    simp only [twilio_sms_webhook, hlk, hY, hpm, hmre]
    simp
  · intro pm offer hpm hmre o ho hoid
    have hoffers : (twilio_sms_webhook cfg db From RawBody).1.offers
        = (updateOffer db offer.oid fun x =>
            { x with status := OfferStatus.ACCEPTED,
                     quoted_price := some (price_cents (pmToRat pm)),
                     responded_at := some db.now }).offers := by
      simp only [twilio_sms_webhook, hlk, hY, hpm, hmre]
      rcases hsid : offer.request_session_id with _ | sid <;> simp only [hsid]
      · rfl
      · rcases hfind : ((updateOffer db offer.oid fun x =>
            { x with status := OfferStatus.ACCEPTED,
                     quoted_price := some (price_cents (pmToRat pm)),
                     responded_at := some db.now }).sessions.find?
              fun srow => srow.sid == sid) with _ | srow <;> simp only [hfind]
        · rfl
        · rcases hcp : srow.customer_phone with _ | cp <;> simp only [hcp]
          · rfl
          · rfl
    rw [hoffers] at ho
    obtain ⟨a, _, hak, rfl⟩ := mem_updateOffer_oid _ _ _ o ho hoid
    exact ⟨rfl, rfl⟩

/-- Witness for C4 (amended): `Y 100` from a provider whose only Pending
offer is job-scoped routes to the job-assignment path. -/
theorem webhook_Y_routing_witness :
    twilio_sms_webhook cfg0 dbC4 "+19565550100" "Y 100"
      = ((handle_response cfg0 dbC4 "+19565550100" "YES").1,
         (handle_response cfg0 dbC4 "+19565550100" "YES").2.message) :=
  (webhook_Y_routing cfg0 dbC4 lkActive "+19565550100" "Y 100" (by decide)
    (by decide)).2.1 ⟨['1', '0', '0'], none⟩ (by decide) (by decide)

/-! ## C7 fixtures and theorems -/

def sessionRow9 : SessionRow := { sid := 9, customer_phone := some "+19565550101" }

/-- A session-scoped Pending offer for `lkActive`. -/
def offerSessScoped : Offer :=
  { oid := 3, job_id := none, request_session_id := some 9, locksmith_id := 1,
    quoted_price := none, wave_number := 1, status := OfferStatus.PENDING,
    twilio_message_sid := some 0, sent_at := 0, responded_at := none,
    expires_at := none }

def dbC7 : DB :=
  { locksmiths := [lkActive], jobs := [], offers := [offerSessScoped],
    sessions := [sessionRow9], locks := [], smsOutbox := [], nextId := 4, now := 7 }

/-- C7 counterexample: the reply `Y $19.99` stores
`int(float("19.99") * 100) = 1998` cents (binary64 truncation), while the
claimed `round(19.99 × 100)` is 1999. -/
theorem webhook_quote_truncates_cents :
    ((twilio_sms_webhook cfg0 dbC7 "+19565550100" "Y $19.99").1.offers.map
      Offer.quoted_price) = [some 1998]
    ∧ roundHalfEven (((1999 : ℚ) / 100) * 100) = 1999 :=
  ⟨by decide, by decide⟩

/-- C7 amended: for a `Y` reply carrying a price match, the quoted_price
stored on the accepted session-scoped offer is
`int(float(price_str) * 100)` computed in binary64 — truncation of the
double product, which can fall one cent below `round(value × 100)` for
non-dyadic decimals — and for whole-dollar values `d ≤ 2^45` the product
is exact, so exactly `100 × d` cents is stored. -/
theorem webhook_quote_price (cfg : Settings) (db : DB) (lk : Locksmith)
    (From RawBody : String) (pm : PriceMatch) (offer : Offer)
    (hnodup : (db.offers.map Offer.oid).Nodup)
    (hlk : get_by_phone db From = some lk)
    (hY : (pyUpper (pyStrip RawBody)).data.head? = some 'Y')
    (hpm : priceSearch (pyUpper (pyStrip RawBody)).data = some pm)
    (hoff : mostRecentPending (sessionPendingOffers db lk.lid) = some offer) :
    (((twilio_sms_webhook cfg db From RawBody).1.offers.find?
        fun o => o.oid == offer.oid).map fun o => (o.status, o.quoted_price))
      = some (OfferStatus.ACCEPTED, some (price_cents (pmToRat pm)))
    ∧ ∀ d : ℕ, 0 < d → d ≤ 2 ^ 45 →
        price_cents ((d : ℕ) : ℚ) = 100 * (d : ℤ) := by
  constructor
  · have hmem : offer ∈ db.offers :=
      List.mem_of_mem_filter (mostRecentPending_mem _ _ hoff)
    have hoffers : (twilio_sms_webhook cfg db From RawBody).1.offers
        = (updateOffer db offer.oid fun x =>
            { x with status := OfferStatus.ACCEPTED,
                     quoted_price := some (price_cents (pmToRat pm)),
                     responded_at := some db.now }).offers := by
      simp only [twilio_sms_webhook, hlk, hY, hpm, hoff]
      rcases hsid : offer.request_session_id with _ | sid <;> simp only [hsid]
      · rfl
      · rcases hfind : ((updateOffer db offer.oid fun x =>
            { x with status := OfferStatus.ACCEPTED,
                     quoted_price := some (price_cents (pmToRat pm)),
                     responded_at := some db.now }).sessions.find?
              fun srow => srow.sid == sid) with _ | srow <;> simp only [hfind]
        · rfl
        · rcases hcp : srow.customer_phone with _ | cp <;> simp only [hcp]
          · rfl
          · rfl
    rw [hoffers, find?_updateOffer db offer.oid
        (fun x =>
          { x with status := OfferStatus.ACCEPTED,
                   quoted_price := some (price_cents (pmToRat pm)),
                   responded_at := some db.now })
        (fun x => rfl) offer.oid,
      find?_key_self db.offers Offer.oid hnodup offer hmem]
    simp
  · intro d hd hdd
    unfold price_cents
    have hcast : ((d : ℕ) : ℚ) = (((d : ℕ) : ℤ) : ℚ) := by push_cast; ring
    rw [hcast, fpRound_int (d : ℤ) (by exact_mod_cast hd)
      (by
        have : ((d : ℕ) : ℤ) ≤ 2 ^ 45 := by exact_mod_cast hdd
        have h2 : (2 : ℤ) ^ 45 < 2 ^ 52 := by norm_num
        omega)]
    have hmul : (((d : ℕ) : ℤ) : ℚ) * 100 = ((100 * (d : ℕ) : ℤ) : ℚ) := by
      push_cast; ring
    rw [hmul, fpRound_int (100 * (d : ℕ) : ℤ)
      (by positivity)
      (by
        have : ((d : ℕ) : ℤ) ≤ 2 ^ 45 := by exact_mod_cast hdd
        have h2 : 100 * (2 : ℤ) ^ 45 < 2 ^ 52 := by norm_num
        omega),
      pyInt_intCast]

/-- Witness for C7 (amended): `Y $75.00` stores exactly 7500 cents. -/
theorem webhook_quote_price_witness :
    (((twilio_sms_webhook cfg0 dbC7 "+19565550100" "Y $75.00").1.offers.find?
        fun o => o.oid == 3).map fun o => (o.status, o.quoted_price))
      = some (OfferStatus.ACCEPTED, some 7500) := by
  have h := (webhook_quote_price cfg0 dbC7 lkActive "+19565550100" "Y $75.00"
    ⟨['7', '5'], some ('0', '0')⟩ offerSessScoped (by decide) (by decide)
    (by decide) (by decide) (by decide)).1
  rw [show (3 : ℕ) = offerSessScoped.oid from rfl, h]
  decide


/-! ## C3 — pool exhaustion and the refund notice -/

def jobCreated : Job :=
  { jobOffered with
    status := JobStatus.CREATED
    current_wave := 0
    dispatch_started_at := none }

def dbNoProviders : DB :=
  { locksmiths := [], jobs := [jobCreated], offers := [], sessions := [],
    locks := [], smsOutbox := [], nextId := 1, now := 0 }

/-- C3 counterexample: when no provider is eligible for the very first
wave, `send_wave` marks the job Failed but sends no SMS at all — the
refund notice is only sent on the decline-driven path, so the claim's
"in every exhaustion case" fails. -/
theorem first_wave_exhaustion_no_refund_sms :
    ((start_dispatch cfg0 dbNoProviders 1).1.jobs.map Job.status
      = [JobStatus.FAILED])
    ∧ (start_dispatch cfg0 dbNoProviders 1).1.smsOutbox = [] :=
  ⟨by decide, by decide⟩

lemma contactedIds_updateOffer (db : DB) (k : ℕ) (f : Offer → Offer) (jid : ℕ)
    (hjob : ∀ o, (f o).job_id = o.job_id)
    (hlid : ∀ o, (f o).locksmith_id = o.locksmith_id) :
    contactedIds (updateOffer db k f) jid = contactedIds db jid := by
  unfold contactedIds updateOffer
  exact filter_map_eq_of_pres db.offers _ _ _
    (fun a _ => by by_cases h : a.oid = k <;> simp [h, hjob])
    (fun a _ => by by_cases h : a.oid = k <;> simp [h, hlid])

/-- C3 amended: on the decline-driven path the refund notice is sent: when
a Pending offer of an Offered job is declined, it was the last Pending
offer of the job, and no eligible provider remains to contact, the job
transitions to Failed and the refund-notice SMS is queued to the
customer's phone. (When no provider was eligible for the very first wave
the job is marked Failed with no SMS; see the counterexample.) -/
theorem decline_exhaustion_fails_job (cfg : Settings) (db : DB)
    (offer : Offer) (job : Job)
    (hjob : getJob db job.jid = some job)
    (hstat : job.status = JobStatus.OFFERED)
    (hlast : ∀ o ∈ db.offers, o.job_id = some job.jid →
      o.status = OfferStatus.PENDING → o.oid = offer.oid)
    (havail : find_available_for_job db job.city job.service_type
      (contactedIds db job.jid) cfg.dispatch_wave_size = []) :
    (getJob (decline_offer cfg db offer job).1 job.jid).map Job.status
      = some JobStatus.FAILED
    ∧ (job.customer_phone, refund_notice_body)
        ∈ (decline_offer cfg db offer job).1.smsOutbox := by
  simp only [decline_offer]
  set db1 := updateOffer db offer.oid fun o =>
    { o with status := OfferStatus.DECLINED, responded_at := some db.now }
    with hdb1
  have hgj1 : getJob db1 job.jid = some job := hjob
  have hfilter : (db1.offers.filter fun o =>
      o.job_id == some job.jid && o.status == OfferStatus.PENDING) = [] := by
    rw [List.filter_eq_nil]
    intro o ho
    rw [hdb1] at ho
    rcases List.mem_map.mp ho with ⟨a, ha, hga⟩
    by_cases hk : a.oid = offer.oid
    · rw [if_pos hk] at hga
      subst hga
      simp
    · rw [if_neg hk] at hga
      subst hga
      simp only [Bool.and_eq_true, beq_iff_eq, not_and]
      intro hj hp
      exact absurd (hlast a ha hj hp) hk
  have hempty : (db1.offers.filter fun o =>
      o.job_id == some job.jid && o.status == OfferStatus.PENDING).isEmpty = true := by
    rw [hfilter]
    rfl
  have hcont : contactedIds db1 job.jid = contactedIds db job.jid := by
    rw [hdb1]
    exact contactedIds_updateOffer db offer.oid _ job.jid
      (fun o => rfl) (fun o => rfl)
  have hfa : find_available_for_job db1 job.city job.service_type
      (contactedIds db1 job.jid) cfg.dispatch_wave_size = [] := by
    rw [hcont]
    exact havail
  have hsw : ∃ dbw j', send_wave cfg db1 job.jid = (dbw, 0)
      ∧ getJob dbw job.jid = some j' := by
    simp only [send_wave, hgj1]
    rw [if_pos (Or.inr hstat), hfa]
    simp only [List.isEmpty_nil, if_true]
    by_cases hc : (contactedIds db1 job.jid).isEmpty = true
    · rw [if_pos hc]
      refine ⟨_, { job with status := JobStatus.FAILED }, rfl, ?_⟩
      rw [getJob_updateJob db1 job.jid
        (fun j => { j with status := JobStatus.FAILED }) (fun j => rfl), hgj1]
      rfl
    · rw [if_neg hc]
      exact ⟨_, job, rfl, hgj1⟩
  obtain ⟨dbw, j', hsweq, hgw⟩ := hsw
  rw [if_pos ⟨hempty, hstat⟩, hsweq]
  rw [if_pos (show ((dbw, (0 : ℕ)).2 = 0) from rfl)]
  constructor
  · have h1 : getJob (updateJob dbw job.jid fun j =>
        { j with status := JobStatus.FAILED }) job.jid
        = some { j' with status := JobStatus.FAILED } := by
      rw [getJob_updateJob dbw job.jid
        (fun j => { j with status := JobStatus.FAILED }) (fun j => rfl), hgw]
      rfl
    have h2 : getJob (send_sms (updateJob dbw job.jid fun j =>
        { j with status := JobStatus.FAILED }) job.customer_phone
        refund_notice_body).1 job.jid
        = some { j' with status := JobStatus.FAILED } := h1
    show (getJob (send_sms (updateJob dbw job.jid fun j =>
        { j with status := JobStatus.FAILED }) job.customer_phone
        refund_notice_body).1 job.jid).map Job.status = some JobStatus.FAILED
    rw [h2]
    rfl
  · exact List.mem_append_right _ (List.mem_singleton_self _)

/-- Witness for C3 (amended): a concrete Offered job whose only provider
already holds the declined offer; the decline fails the job and queues
the refund SMS. -/
def dbC3w : DB :=
  { locksmiths := [lkActive], jobs := [jobOffered], offers := [offerJobScoped],
    sessions := [], locks := [], smsOutbox := [], nextId := 2, now := 9 }

theorem decline_exhaustion_fails_job_witness :
    (getJob (decline_offer cfg0 dbC3w offerJobScoped jobOffered).1 1).map
        Job.status = some JobStatus.FAILED
    ∧ ("+19565550101", refund_notice_body)
        ∈ (decline_offer cfg0 dbC3w offerJobScoped jobOffered).1.smsOutbox :=
  decline_exhaustion_fails_job cfg0 dbC3w offerJobScoped jobOffered
    (by decide) (by decide)
    (by decide)
    (by decide)


/-! ## Structural lemmas about `send_wave` / `start_dispatch` -/

lemma sendWaveOffers_jobs (cfg : Settings) (jid wave : ℕ) (msg : String) :
    ∀ (ls : List Locksmith) (db : DB),
      (sendWaveOffers cfg jid wave msg db ls).jobs = db.jobs := by
  intro ls
  induction ls with
  | nil => intro db; rfl
  | cons lk rest ih =>
    intro db
    simp only [sendWaveOffers]
    rw [ih]
    rfl

lemma sendWaveOffers_offers (cfg : Settings) (jid wave : ℕ) (msg : String) :
    ∀ (ls : List Locksmith) (db : DB) (o : Offer),
      o ∈ (sendWaveOffers cfg jid wave msg db ls).offers →
      o ∈ db.offers
        ∨ (o.status = OfferStatus.PENDING ∧ db.nextId ≤ o.oid
            ∧ o.job_id = some jid) := by
  intro ls
  induction ls with
  | nil => intro db o ho; exact Or.inl ho
  | cons lk rest ih =>
    intro db o ho
    simp only [sendWaveOffers] at ho
    rcases ih _ o ho with hmem | hnew
    · rcases List.mem_append.mp hmem with h | h
      · exact Or.inl h
      · obtain rfl := List.mem_singleton.mp h
        exact Or.inr ⟨rfl, Nat.le_refl _, rfl⟩
    · exact Or.inr ⟨hnew.1, Nat.le_trans (Nat.le_succ _) hnew.2.1, hnew.2.2⟩

lemma send_wave_offers (cfg : Settings) (db : DB) (jid : ℕ) (o : Offer)
    (ho : o ∈ (send_wave cfg db jid).1.offers) :
    o ∈ db.offers
      ∨ (o.status = OfferStatus.PENDING ∧ db.nextId ≤ o.oid
          ∧ o.job_id = some jid) := by
  rcases hgj : getJob db jid with _ | job
  · simp only [send_wave, hgj] at ho
    exact Or.inl ho
  · simp only [send_wave, hgj] at ho
    by_cases hst : job.status = JobStatus.DISPATCHING
        ∨ job.status = JobStatus.OFFERED
    · rw [if_pos hst] at ho
      by_cases hae : (find_available_for_job db job.city job.service_type
          (contactedIds db jid) cfg.dispatch_wave_size).isEmpty = true
      · rw [if_pos hae] at ho
        by_cases hce : (contactedIds db jid).isEmpty = true
        · rw [if_pos hce] at ho
          exact Or.inl ho
        · rw [if_neg hce] at ho
          exact Or.inl ho
      · rw [if_neg hae] at ho
        rcases sendWaveOffers_offers _ _ _ _ _ _ o ho with h | h
        · exact Or.inl h
        · exact Or.inr h
    · rw [if_neg hst] at ho
      exact Or.inl ho

lemma send_wave_job_fields (cfg : Settings) (db : DB) (jid : ℕ) (j : Job)
    (hj : getJob db jid = some j) :
    ∃ j', getJob (send_wave cfg db jid).1 jid = some j'
      ∧ j'.assigned_locksmith_id = j.assigned_locksmith_id
      ∧ j'.assigned_at = j.assigned_at
      ∧ j'.dispatch_started_at = j.dispatch_started_at
      ∧ (j'.status = j.status ∨ j'.status = JobStatus.FAILED
          ∨ j'.status = JobStatus.OFFERED) := by
  by_cases hst : j.status = JobStatus.DISPATCHING ∨ j.status = JobStatus.OFFERED
  · by_cases hae : (find_available_for_job db j.city j.service_type
        (contactedIds db jid) cfg.dispatch_wave_size).isEmpty = true
    · by_cases hce : (contactedIds db jid).isEmpty = true
      · refine ⟨{ j with status := JobStatus.FAILED }, ?_, rfl, rfl, rfl,
          Or.inr (Or.inl rfl)⟩
        simp only [send_wave, hj]
        rw [if_pos hst, if_pos hae, if_pos hce]
        show getJob (updateJob db jid fun x =>
          { x with status := JobStatus.FAILED }) jid = _
        rw [getJob_updateJob db jid
          (fun x => { x with status := JobStatus.FAILED }) (fun x => rfl), hj]
        rfl
      · refine ⟨j, ?_, rfl, rfl, rfl, Or.inl rfl⟩
        simp only [send_wave, hj]
        rw [if_pos hst, if_pos hae, if_neg hce]
        exact hj
    · refine ⟨{ j with current_wave := j.current_wave + 1, status := JobStatus.OFFERED }, ?_, rfl, rfl, rfl, Or.inr (Or.inr rfl)⟩
      simp only [send_wave, hj]
      rw [if_pos hst, if_neg hae]
      have hgetEq : getJob (sendWaveOffers cfg jid (j.current_wave + 1)
          (build_offer_message j)
          (updateJob db jid fun x =>
            { x with current_wave := x.current_wave + 1, status := JobStatus.OFFERED })
          (find_available_for_job db j.city j.service_type
            (contactedIds db jid) cfg.dispatch_wave_size)) jid
          = getJob (updateJob db jid fun x =>
            { x with current_wave := x.current_wave + 1, status := JobStatus.OFFERED }) jid := by
        unfold getJob
        rw [sendWaveOffers_jobs]
      show getJob (sendWaveOffers cfg jid (j.current_wave + 1)
          (build_offer_message j)
          (updateJob db jid fun x =>
            { x with current_wave := x.current_wave + 1, status := JobStatus.OFFERED })
          (find_available_for_job db j.city j.service_type
            (contactedIds db jid) cfg.dispatch_wave_size)) jid = _
      rw [hgetEq, getJob_updateJob db jid
        (fun x => { x with current_wave := x.current_wave + 1, status := JobStatus.OFFERED })
        (fun x => rfl), hj]
      rfl
  · refine ⟨j, ?_, rfl, rfl, rfl, Or.inl rfl⟩
    simp only [send_wave, hj]
    rw [if_neg hst]
    exact hj

/-! ## C10 — admin restart of dispatch -/

/-- The offer-cancel pass of `restart_dispatch`. -/
def cancelAllOffers (db : DB) (jid : ℕ) : DB :=
  { db with offers := db.offers.map fun o =>
      if (o.job_id = some jid) then { o with status := OfferStatus.CANCELED } else o }

/-- The job-reset pass of `restart_dispatch`. -/
def resetJobFields (j : Job) : Job :=
  { j with
    status := JobStatus.CREATED
    current_wave := 0
    dispatch_started_at := none
    assigned_locksmith_id := none
    assigned_at := none }

lemma restart_dispatch_eq (cfg : Settings) (db : DB) (jid : ℕ) (job : Job)
    (hjob : getJob db jid = some job) :
    restart_dispatch cfg db jid
      = start_dispatch cfg (updateJob (cancelAllOffers db jid) jid resetJobFields) jid := by
  unfold restart_dispatch cancelAllOffers resetJobFields updateJob
  rw [hjob]

/-- C10: `restart_dispatch` on an existing job cancels every offer of the
job — including an already-Accepted one — clears the assignment fields,
resets the job to Created with `current_wave = 0` and a null
`dispatch_started_at`, and then starts a fresh dispatch (which moves the
job to Dispatching/Offered, or Failed when no provider is eligible, and
creates only fresh Pending offers). No prior acceptance survives: the old
offers of the job are all Canceled in the final state, no offer of the
job is Accepted, and the job's assignment fields are null. -/
theorem restart_dispatch_spec (cfg : Settings) (db : DB) (jid : ℕ) (job : Job)
    (hjob : getJob db jid = some job)
    (hnodup : (db.offers.map Offer.oid).Nodup)
    (hbound : ∀ o ∈ db.offers, o.oid < db.nextId) :
    (restart_dispatch cfg db jid).2 = true
    ∧ (∀ o ∈ db.offers, o.job_id = some jid →
        ∀ o' ∈ (restart_dispatch cfg db jid).1.offers, o'.oid = o.oid →
          o'.status = OfferStatus.CANCELED)
    ∧ (∀ o' ∈ (restart_dispatch cfg db jid).1.offers, o'.job_id = some jid →
        o'.status ≠ OfferStatus.ACCEPTED)
    ∧ (∃ j', getJob (restart_dispatch cfg db jid).1 jid = some j'
        ∧ j'.assigned_locksmith_id = none ∧ j'.assigned_at = none
        ∧ j'.dispatch_started_at = some db.now
        ∧ (j'.status = JobStatus.DISPATCHING ∨ j'.status = JobStatus.OFFERED
            ∨ j'.status = JobStatus.FAILED)) := by
  have hres := restart_dispatch_eq cfg db jid job hjob
  have hg1 : getJob (cancelAllOffers db jid) jid = some job := hjob
  have hg2 : getJob (updateJob (cancelAllOffers db jid) jid resetJobFields) jid
      = some (resetJobFields job) := by
    rw [getJob_updateJob (cancelAllOffers db jid) jid resetJobFields
      (fun j => rfl), hg1]
    rfl
  have hstart : start_dispatch cfg
      (updateJob (cancelAllOffers db jid) jid resetJobFields) jid
      = ((send_wave cfg (updateJob
          (updateJob (cancelAllOffers db jid) jid resetJobFields) jid fun j =>
            { j with
              status := JobStatus.DISPATCHING
              dispatch_started_at :=
                some (updateJob (cancelAllOffers db jid) jid resetJobFields).now
              current_wave := 0 }) jid).1, true) := by
    unfold start_dispatch
    simp only [hg2]
    rw [if_pos (show (resetJobFields job).status = JobStatus.CREATED from rfl)]
  have hg3 : getJob (updateJob
      (updateJob (cancelAllOffers db jid) jid resetJobFields) jid fun j =>
        { j with
          status := JobStatus.DISPATCHING
          dispatch_started_at :=
            some (updateJob (cancelAllOffers db jid) jid resetJobFields).now
          current_wave := 0 }) jid
      = some { resetJobFields job with
          status := JobStatus.DISPATCHING
          dispatch_started_at := some db.now
          current_wave := 0 } := by
    rw [getJob_updateJob
      (updateJob (cancelAllOffers db jid) jid resetJobFields) jid
      (fun j =>
        { j with
          status := JobStatus.DISPATCHING
          dispatch_started_at :=
            some (updateJob (cancelAllOffers db jid) jid resetJobFields).now
          current_wave := 0 })
      (fun j => rfl), hg2]
    rfl
  have hRoffers : ∀ o' ∈ (restart_dispatch cfg db jid).1.offers,
      o' ∈ (cancelAllOffers db jid).offers
        ∨ (o'.status = OfferStatus.PENDING ∧ db.nextId ≤ o'.oid
            ∧ o'.job_id = some jid) := by
    intro o' ho'
    rw [hres, hstart] at ho'
    rcases send_wave_offers cfg _ jid o' ho' with h | h
    · exact Or.inl h
    · exact Or.inr h
  refine ⟨?_, ?_, ?_, ?_⟩
  · rw [hres, hstart]
  · intro o hoMem hoJid o' ho' hEq
    rcases hRoffers o' ho' with hold | hnew
    · rcases List.mem_map.mp hold with ⟨a, ha, hga⟩
      by_cases hk : (a.job_id = some jid)
      · rw [if_pos hk] at hga
        subst hga
        rfl
      · rw [if_neg hk] at hga
        subst hga
        have heq2 : a = o :=
          List.inj_on_of_nodup_map hnodup ha hoMem hEq
        subst heq2
        exact absurd hoJid hk
    · have := hbound o hoMem
      omega
  · intro o' ho' hJid
    rcases hRoffers o' ho' with hold | hnew
    · rcases List.mem_map.mp hold with ⟨a, ha, hga⟩
      by_cases hk : (a.job_id = some jid)
      · rw [if_pos hk] at hga
        subst hga
        simp
      · rw [if_neg hk] at hga
        subst hga
        exact absurd hJid hk
    · rw [hnew.1]
      simp
  · rw [hres, hstart]
    obtain ⟨j', hj', ha1, ha2, hd, hs⟩ := send_wave_job_fields cfg _ jid _ hg3
    refine ⟨j', hj', by rw [ha1]; try rfl, by rw [ha2]; try rfl,
      by rw [hd]; try rfl, ?_⟩
    rcases hs with h | h | h
    · exact Or.inl (by rw [h])
    · exact Or.inr (Or.inr h)
    · exact Or.inr (Or.inl h)

/-- Witness fixtures for C10: an Assigned job with an Accepted offer. -/
def jobAssigned : Job :=
  { jobOffered with
    status := JobStatus.ASSIGNED
    assigned_locksmith_id := some 1
    assigned_at := some 3 }

def offerAccepted : Offer :=
  { offerJobScoped with
    status := OfferStatus.ACCEPTED
    responded_at := some 3 }

def dbC10 : DB :=
  { locksmiths := [lkActive], jobs := [jobAssigned], offers := [offerAccepted],
    sessions := [], locks := [], smsOutbox := [], nextId := 2, now := 11 }

/-- Witness for C10: after restart of the assigned job, dispatch restarts
and the assignment fields are cleared. -/
theorem restart_dispatch_spec_witness :
    (restart_dispatch cfg0 dbC10 1).2 = true
    ∧ (∃ j', getJob (restart_dispatch cfg0 dbC10 1).1 1 = some j'
        ∧ j'.assigned_locksmith_id = none ∧ j'.assigned_at = none
        ∧ j'.dispatch_started_at = some dbC10.now
        ∧ (j'.status = JobStatus.DISPATCHING ∨ j'.status = JobStatus.OFFERED
            ∨ j'.status = JobStatus.FAILED)) :=
  ⟨(restart_dispatch_spec cfg0 dbC10 1 jobAssigned (by decide) (by decide)
      (by decide)).1,
   (restart_dispatch_spec cfg0 dbC10 1 jobAssigned (by decide) (by decide)
      (by decide)).2.2.2⟩

/-! ## C1 — offer acceptance and assignment uniqueness -/

/-- The predicate counted by `countAcceptedJob`, named so rewriting can
see through the lambda. -/
def isAcceptedFor (jid : ℕ) (o : Offer) : Bool :=
  o.job_id == some jid && o.status == OfferStatus.ACCEPTED

lemma countAcceptedJob_eq (db : DB) (jid : ℕ) :
    countAcceptedJob db jid = db.offers.countP (isAcceptedFor jid) := rfl

/-- The offer update of `_accept_offer` lines 216-217. -/
def markAccepted (t k : ℕ) (o : Offer) : Offer :=
  if o.oid = k
  then { o with status := OfferStatus.ACCEPTED, responded_at := some t }
  else o

/-- The bulk `UPDATE` of `_accept_offer` lines 225-233. -/
def cancelOtherPending (jid k : ℕ) (o : Offer) : Offer :=
  if (o.job_id = some jid ∧ o.oid ≠ k ∧ o.status = OfferStatus.PENDING)
  then { o with status := OfferStatus.CANCELED }
  else o

lemma countP_map_pres {α : Type} (l : List α) (g : α → α) (p : α → Bool)
    (h : ∀ a ∈ l, p (g a) = p a) : (l.map g).countP p = l.countP p := by
  induction l with
  | nil => rfl
  | cons a t ih =>
    simp only [List.map_cons, List.countP_cons, h a (List.mem_cons_self a t),
      ih fun x hx => h x (List.mem_cons_of_mem a hx)]

lemma countP_double_map {α : Type} (l : List α) (g g2 : α → α) (p q : α → Bool)
    (h : ∀ a ∈ l, p (g2 (g a)) = q a) : ((l.map g).map g2).countP p = l.countP q := by
  induction l with
  | nil => rfl
  | cons a t ih =>
    simp only [List.map_cons, List.countP_cons, h a (List.mem_cons_self a t),
      ih fun x hx => h x (List.mem_cons_of_mem a hx)]

/-- Both failure branches of `_accept_offer` mark the responding offer
Canceled and leave the Accepted count of every job unchanged (the
responding offer was Pending, not Accepted). -/
lemma cancel_mark_facts (db X : DB) (offer : Offer) (jid : ℕ)
    (hn : (db.offers.map Offer.oid).Nodup) (hmem : offer ∈ db.offers)
    (hopend : offer.status = OfferStatus.PENDING)
    (hX : X.offers = db.offers.map fun o =>
      if o.oid = offer.oid
      then { o with status := OfferStatus.CANCELED, responded_at := some db.now }
      else o) :
    offerStatusIn X offer.oid = some OfferStatus.CANCELED
    ∧ countAcceptedJob X jid = countAcceptedJob db jid := by
  constructor
  · unfold offerStatusIn
    rw [hX, find?_key_map db.offers Offer.oid
        (fun o => if o.oid = offer.oid
          then { o with status := OfferStatus.CANCELED, responded_at := some db.now }
          else o)
        (fun o => by by_cases h : o.oid = offer.oid <;> simp [h]) offer.oid,
      find?_key_self db.offers Offer.oid hn offer hmem]
    simp
  · rw [countAcceptedJob_eq, countAcceptedJob_eq, hX]
    refine countP_map_pres db.offers
      (fun o => if o.oid = offer.oid
        then { o with status := OfferStatus.CANCELED, responded_at := some db.now }
        else o)
      (isAcceptedFor jid) ?_
    intro a ha
    show isAcceptedFor jid
        (if a.oid = offer.oid
          then { a with status := OfferStatus.CANCELED, responded_at := some db.now }
          else a)
      = isAcceptedFor jid a
    by_cases hk : a.oid = offer.oid
    · have hast : a.status = OfferStatus.PENDING := by
        rw [List.inj_on_of_nodup_map hn ha hmem hk]
        exact hopend
      rw [if_pos hk]
      calc isAcceptedFor jid
            { a with status := OfferStatus.CANCELED, responded_at := some db.now }
          = (a.job_id == some jid && (OfferStatus.CANCELED == OfferStatus.ACCEPTED)) :=
            rfl
        _ = (a.job_id == some jid && (OfferStatus.PENDING == OfferStatus.ACCEPTED)) :=
            rfl
        _ = (a.job_id == some jid && (a.status == OfferStatus.ACCEPTED)) := by
            rw [hast]
        _ = isAcceptedFor jid a := rfl
    · rw [if_neg hk]

/-- C1: `_accept_offer` succeeds exactly when the job is still
Dispatching/Offered and the Redis assignment lock is free. On success the
responding offer becomes Accepted, the job becomes Assigned to the
responding provider with `assigned_at` set, every other Pending offer for
the job is Canceled, no Pending offer for the job remains, and — starting
from a state with no Accepted offer for the job — exactly one Accepted
offer for the job exists afterwards. On failure the reply is "Job already
assigned" (lock held) or "Job no longer available" (status moved on), the
responding offer is Canceled, and the number of Accepted offers for the
job is unchanged, so a later acceptance for an already-assigned job never
creates a second Accepted offer. -/
theorem accept_offer_spec (db db' : DB) (offer : Offer) (job : Job)
    (lk : Locksmith) (r : Reply)
    (hn : (db.offers.map Offer.oid).Nodup)
    (hmem : offer ∈ db.offers)
    (hjob : getJob db job.jid = some job)
    (hoj : offer.job_id = some job.jid)
    (hopend : offer.status = OfferStatus.PENDING)
    (hrun : accept_offer db offer job lk = (db', r)) :
    (r.success = true ↔
      ((job.status = JobStatus.DISPATCHING ∨ job.status = JobStatus.OFFERED)
        ∧ lockFree db job.jid = true))
    ∧ (r.success = true →
        offerStatusIn db' offer.oid = some OfferStatus.ACCEPTED
        ∧ getJob db' job.jid = some { job with
            assigned_locksmith_id := some lk.lid
            assigned_at := some db.now
            status := JobStatus.ASSIGNED }
        ∧ (∀ o ∈ db.offers, o.job_id = some job.jid → o.oid ≠ offer.oid →
            o.status = OfferStatus.PENDING →
            offerStatusIn db' o.oid = some OfferStatus.CANCELED)
        ∧ (∀ o ∈ db'.offers, o.job_id = some job.jid →
            o.status ≠ OfferStatus.PENDING)
        ∧ (countAcceptedJob db job.jid = 0 → countAcceptedJob db' job.jid = 1))
    ∧ (r.success = false →
        (r.message = "Job already assigned" ∨ r.message = "Job no longer available")
        ∧ offerStatusIn db' offer.oid = some OfferStatus.CANCELED
        ∧ countAcceptedJob db' job.jid = countAcceptedJob db job.jid) := by
  by_cases hl : lockFree db job.jid = true
  · by_cases hs : job.status = JobStatus.DISPATCHING ∨ job.status = JobStatus.OFFERED
    · simp only [accept_offer] at hrun
      rw [if_pos hl, if_pos hs] at hrun
      injection hrun with hdb hmsg
      subst hmsg
      have hoffs : db'.offers
          = (db.offers.map (markAccepted db.now offer.oid)).map
              (cancelOtherPending job.jid offer.oid) := by
        rw [← hdb]
        rfl
      have hjobs : db'.jobs = db.jobs.map fun j =>
          if j.jid = job.jid
          then { j with
            assigned_locksmith_id := some lk.lid
            assigned_at := some db.now
            status := JobStatus.ASSIGNED }
          else j := by
        rw [← hdb]
        rfl
      refine ⟨iff_of_true rfl ⟨hs, hl⟩, ?_, ?_⟩
      · intro _
        refine ⟨?_, ?_, ?_, ?_, ?_⟩
        · unfold offerStatusIn
          rw [hoffs,
            find?_key_map _ Offer.oid (cancelOtherPending job.jid offer.oid)
              (fun o => by unfold cancelOtherPending; split <;> rfl) offer.oid,
            find?_key_map db.offers Offer.oid (markAccepted db.now offer.oid)
              (fun o => by unfold markAccepted; split <;> rfl) offer.oid,
            find?_key_self db.offers Offer.oid hn offer hmem]
          simp [markAccepted, cancelOtherPending]
        · unfold getJob
          rw [hjobs,
            find?_key_map db.jobs Job.jid
              (fun j => if j.jid = job.jid
                then { j with
                  assigned_locksmith_id := some lk.lid
                  assigned_at := some db.now
                  status := JobStatus.ASSIGNED }
                else j)
              (fun j => by by_cases h : j.jid = job.jid <;> simp [h]) job.jid,
            show db.jobs.find? (fun j => j.jid == job.jid) = some job from hjob]
          simp
        · intro o ho hjid hne hpend
          unfold offerStatusIn
          rw [hoffs,
            find?_key_map _ Offer.oid (cancelOtherPending job.jid offer.oid)
              (fun x => by unfold cancelOtherPending; split <;> rfl) o.oid,
            find?_key_map db.offers Offer.oid (markAccepted db.now offer.oid)
              (fun x => by unfold markAccepted; split <;> rfl) o.oid,
            find?_key_self db.offers Offer.oid hn o ho]
          simp only [Option.map_some', markAccepted, cancelOtherPending]
          rw [if_neg hne, if_pos ⟨hjid, hne, hpend⟩]
          try rfl
        · intro o ho hjid
          rw [hoffs] at ho
          rcases List.mem_map.mp ho with ⟨b, hb, hgb⟩
          rcases List.mem_map.mp hb with ⟨a, ha, hga⟩
          unfold markAccepted at hga
          unfold cancelOtherPending at hgb
          by_cases hk : a.oid = offer.oid
          · rw [if_pos hk] at hga
            subst hga
            have hc : ¬ (({ a with status := OfferStatus.ACCEPTED, responded_at := some db.now } : Offer).job_id = some job.jid
                ∧ ({ a with status := OfferStatus.ACCEPTED, responded_at := some db.now } : Offer).oid ≠ offer.oid
                ∧ ({ a with status := OfferStatus.ACCEPTED, responded_at := some db.now } : Offer).status = OfferStatus.PENDING) :=
              fun hcon => hcon.2.1 hk
            rw [if_neg hc] at hgb
            subst hgb
            simp
          · rw [if_neg hk] at hga
            subst hga
            by_cases hc : (a.job_id = some job.jid ∧ a.oid ≠ offer.oid
                ∧ a.status = OfferStatus.PENDING)
            · rw [if_pos hc] at hgb
              subst hgb
              simp
            · rw [if_neg hc] at hgb
              subst hgb
              intro hp
              exact hc ⟨hjid, hk, hp⟩
        · intro hacc0
          have hpt : ∀ a ∈ db.offers,
              isAcceptedFor job.jid (cancelOtherPending job.jid offer.oid
                (markAccepted db.now offer.oid a))
              = (Offer.oid a == Offer.oid offer) := by
            intro a ha
            unfold markAccepted
            by_cases hk : a.oid = offer.oid
            · rw [if_pos hk]
              have hja : a.job_id = some job.jid := by
                rw [List.inj_on_of_nodup_map hn ha hmem hk]
                exact hoj
              have hc : ¬ (({ a with status := OfferStatus.ACCEPTED, responded_at := some db.now } : Offer).job_id = some job.jid
                  ∧ ({ a with status := OfferStatus.ACCEPTED, responded_at := some db.now } : Offer).oid ≠ offer.oid
                  ∧ ({ a with status := OfferStatus.ACCEPTED, responded_at := some db.now } : Offer).status = OfferStatus.PENDING) :=
                fun hcon => hcon.2.1 hk
              unfold cancelOtherPending
              rw [if_neg hc]
              calc isAcceptedFor job.jid
                    { a with status := OfferStatus.ACCEPTED, responded_at := some db.now }
                  = (a.job_id == some job.jid
                      && (OfferStatus.ACCEPTED == OfferStatus.ACCEPTED)) := rfl
                _ = (some job.jid == some job.jid
                      && (OfferStatus.ACCEPTED == OfferStatus.ACCEPTED)) := by
                    rw [hja]
                _ = (Offer.oid a == Offer.oid offer) := by
                    rw [hk]
                    simp
            · rw [if_neg hk]
              unfold cancelOtherPending
              by_cases hc : (a.job_id = some job.jid ∧ a.oid ≠ offer.oid
                  ∧ a.status = OfferStatus.PENDING)
              · rw [if_pos hc]
                calc isAcceptedFor job.jid { a with status := OfferStatus.CANCELED }
                    = (a.job_id == some job.jid
                        && (OfferStatus.CANCELED == OfferStatus.ACCEPTED)) := rfl
                  _ = (a.job_id == some job.jid && false) := rfl
                  _ = false := Bool.and_false _
                  _ = (Offer.oid a == Offer.oid offer) :=
                      (beq_eq_false_iff_ne.mpr hk).symm
              · rw [if_neg hc]
                have hz := List.countP_eq_zero.mp hacc0 a ha
                rw [show (Offer.oid a == Offer.oid offer) = false from
                    beq_eq_false_iff_ne.mpr hk]
                cases hb : isAcceptedFor job.jid a with
                | false => rfl
                | true => exact absurd hb hz
          rw [countAcceptedJob_eq, hoffs,
            countP_double_map db.offers (markAccepted db.now offer.oid)
              (cancelOtherPending job.jid offer.oid) (isAcceptedFor job.jid)
              (fun x => Offer.oid x == Offer.oid offer) hpt,
            countP_key_one db.offers Offer.oid hn offer hmem]
      · intro hfalse
        exact absurd hfalse (by simp)
    · simp only [accept_offer] at hrun
      rw [if_pos hl, if_neg hs] at hrun
      injection hrun with hdb hmsg
      subst hmsg
      have hoffs : db'.offers = db.offers.map fun o =>
          if o.oid = offer.oid
          then { o with status := OfferStatus.CANCELED, responded_at := some db.now }
          else o := by
        rw [← hdb]
        rfl
      have hfacts := cancel_mark_facts db db' offer job.jid hn hmem hopend hoffs
      refine ⟨iff_of_false (by simp) (fun hcon => hs hcon.1), ?_, ?_⟩
      · intro htrue
        exact absurd htrue (by simp)
      · intro _
        exact ⟨Or.inr rfl, hfacts.1, hfacts.2⟩
  · simp only [accept_offer] at hrun
    rw [if_neg hl] at hrun
    injection hrun with hdb hmsg
    subst hmsg
    have hoffs : db'.offers = db.offers.map fun o =>
        if o.oid = offer.oid
        then { o with status := OfferStatus.CANCELED, responded_at := some db.now }
        else o := by
      rw [← hdb]
      rfl
    have hfacts := cancel_mark_facts db db' offer job.jid hn hmem hopend hoffs
    refine ⟨iff_of_false (by simp) (fun hcon => hl hcon.2), ?_, ?_⟩
    · intro htrue
      exact absurd htrue (by simp)
    · intro _
      exact ⟨Or.inl rfl, hfacts.1, hfacts.2⟩

/-- A second Pending offer of the same wave, for a second provider. -/
def offerPending2 : Offer :=
  { offerJobScoped with oid := 2, locksmith_id := 2 }

def dbC1 : DB :=
  { locksmiths := [lkActive], jobs := [jobOffered],
    offers := [offerJobScoped, offerPending2], sessions := [], locks := [],
    smsOutbox := [], nextId := 3, now := 9 }

/-- Witness for C1: with two Pending offers out, `YES` from the first
provider succeeds, accepts offer 1, cancels offer 2, and leaves exactly
one Accepted offer for the job. -/
theorem accept_offer_spec_witness :
    (accept_offer dbC1 offerJobScoped jobOffered lkActive).2.success = true
    ∧ offerStatusIn (accept_offer dbC1 offerJobScoped jobOffered lkActive).1
        offerJobScoped.oid = some OfferStatus.ACCEPTED
    ∧ offerStatusIn (accept_offer dbC1 offerJobScoped jobOffered lkActive).1
        offerPending2.oid = some OfferStatus.CANCELED
    ∧ countAcceptedJob (accept_offer dbC1 offerJobScoped jobOffered lkActive).1
        jobOffered.jid = 1 := by
  have T := accept_offer_spec dbC1
    (accept_offer dbC1 offerJobScoped jobOffered lkActive).1 offerJobScoped
    jobOffered lkActive
    (accept_offer dbC1 offerJobScoped jobOffered lkActive).2
    (by decide) (by decide) (by decide) (by decide) (by decide) rfl
  have hsucc : (accept_offer dbC1 offerJobScoped jobOffered lkActive).2.success
      = true := T.1.mpr ⟨Or.inr (by decide), by decide⟩
  exact ⟨hsucc, (T.2.1 hsucc).1,
    (T.2.1 hsucc).2.2.1 offerPending2 (by decide) (by decide) (by decide)
      (by decide),
    (T.2.1 hsucc).2.2.2.2 (by decide)⟩

end Locksmith
